import Mathlib

/-!
Verification of the cc-plugin-cmip6 attribute/term validation engine.

Shallow embedding of `cc_plugin_cmip6/validators.py`, `cc_plugin_cmip6/mip_tables.py`
and `cc_plugin_cmip6/cmip6.py` (Python 2).  Python runtime values are modelled by
`PyVal`; Python exceptions by `PyExc` and `Except`; numpy scalar types keep their
own constructors because the validators discriminate on runtime type.  External
collaborators (the pyessv controlled-vocabulary source, the netCDF file reader,
dateutil's date parser, compiled regular expressions passed to builders) are
modelled as explicit parameters, per the out-of-scope interface list of the design.
-/

deriving instance DecidableEq for Except

namespace CMIP6

/-- A Python 2 runtime value, restricted to the types the checker manipulates. -/
inductive PyVal where
  | pyInt (n : Int)
  | npInt32 (n : Int)
  | pyFloat (q : Rat)
  | npFloat64 (q : Rat)
  | npFloat32 (q : Rat)
  | pyStr (s : String)
  | pyUnicode (s : String)
  | pyNone
deriving DecidableEq

/-- Numeric view of a value: Python compares all numeric types by value. -/
def pyNum : PyVal → Option Rat
  | .pyInt n => some (n : Rat)
  | .npInt32 n => some (n : Rat)
  | .pyFloat q => some q
  | .npFloat64 q => some q
  | .npFloat32 q => some q
  | _ => none

/-- Textual view of a value: Python 2 `str` and `unicode` compare equal by content. -/
def pyText : PyVal → Option String
  | .pyStr s => some s
  | .pyUnicode s => some s
  | _ => none

/-- Python `==`: numeric cross-type equality by value, str/unicode by content,
`None == None`; values of unrelated types are unequal. -/
def pyEq (a b : PyVal) : Bool :=
  match pyNum a, pyNum b with
  | some x, some y => x == y
  | _, _ =>
    match pyText a, pyText b with
    | some s, some t => s == t
    | _, _ => a == b

/-- Python truthiness, `bool(x)`. -/
def pyTruthy : PyVal → Bool
  | .pyInt n => n != 0
  | .npInt32 n => n != 0
  | .pyFloat q => q != 0
  | .npFloat64 q => q != 0
  | .npFloat32 q => q != 0
  | .pyStr s => !s.data.isEmpty
  | .pyUnicode s => !s.data.isEmpty
  | .pyNone => false

/-- A Python exception, carrying its class and `.message`. -/
inductive PyExc where
  | typeError (msg : String)
  | valueError (msg : String)
  | attributeError (msg : String)
  | indexError (msg : String)
  | keyError (msg : String)
  | exception (msg : String)
deriving DecidableEq

/-- The `.message` payload of an exception (Python 2 attribute). -/
def PyExc.message : PyExc → String
  | .typeError m => m
  | .valueError m => m
  | .attributeError m => m
  | .indexError m => m
  | .keyError m => m
  | .exception m => m

/-! ### String helpers

Python string operations are embedded as structural recursions over the
character list (`String.data`), so that every definition evaluates by kernel
reduction. -/

/-- Python `str.split(sep)` for a one-character separator (keeps empty parts). -/
def splitOnChar (sep : Char) : List Char → List (List Char)
  | [] => [[]]
  | c :: rest =>
    let r := splitOnChar sep rest
    if c == sep then [] :: r else (c :: r.headD []) :: r.tail

def strSplit (sep : Char) (s : String) : List String :=
  (splitOnChar sep s.toList).map String.mk

/-- `str.lower()`. -/
def strLower (s : String) : String := String.mk (s.toList.map Char.toLower)

/-! ## Datetime model and `datetime.strptime`

`cmip6.py` parses filename date ranges with `datetime.strptime` over purely
numeric templates; `validators.py` builds a date validator over an arbitrary
template.  CPython's `_strptime` matches each directive with a dedicated
digit regex (with backtracking across directives) and then constructs a
`datetime`, which raises `ValueError` for out-of-range fields. -/

/-- One directive or literal character of a strptime template. -/
inductive DTok where
  | Y | m | d | H | M | S
  | lit (c : Char)
deriving DecidableEq

/-- A Python `datetime.datetime` value. -/
structure PyDateTime where
  year : Nat
  month : Nat
  day : Nat
  hour : Nat
  minute : Nat
  second : Nat
deriving DecidableEq

/-- `datetime` comparison: field-lexicographic (Python compares valid datetimes
by timestamp, which is field-lexicographic order). -/
def dtLe (a b : PyDateTime) : Bool :=
  if a.year ≠ b.year then a.year < b.year
  else if a.month ≠ b.month then a.month < b.month
  else if a.day ≠ b.day then a.day < b.day
  else if a.hour ≠ b.hour then a.hour < b.hour
  else if a.minute ≠ b.minute then a.minute < b.minute
  else a.second ≤ b.second

def digVal (c : Char) : Nat := c.toNat - 48

/-- Candidate matches for one directive at the head of the input, in the
alternation order of CPython's `_strptime` regexes:
`Y`:`dddd`, `m`:`1[0-2]|0[1-9]|[1-9]`, `d`:`3[01]|[12]\d|0[1-9]|[1-9]`,
`H`:`2[0-3]|[0-1]\d|\d`, `M`:`[0-5]\d|\d`, `S`:`6[0-1]|[0-5]\d|\d`;
literals are matched case-insensitively (the format regex is IGNORECASE). -/
def tokCands : DTok → List Char → List (Nat × List Char)
  | .Y, c0 :: c1 :: c2 :: c3 :: rest =>
    if c0.isDigit && c1.isDigit && c2.isDigit && c3.isDigit then
      [(digVal c0 * 1000 + digVal c1 * 100 + digVal c2 * 10 + digVal c3, rest)]
    else []
  | .Y, _ => []
  | .m, c0 :: c1 :: rest =>
    (if c0 == '1' && ('0' ≤ c1 && c1 ≤ '2') then [(10 + digVal c1, rest)]
     else if c0 == '0' && ('1' ≤ c1 && c1 ≤ '9') then [(digVal c1, rest)]
     else []) ++
    (if '1' ≤ c0 && c0 ≤ '9' then [(digVal c0, c1 :: rest)] else [])
  | .m, c0 :: rest =>
    if '1' ≤ c0 && c0 ≤ '9' then [(digVal c0, rest)] else []
  | .m, [] => []
  | .d, c0 :: c1 :: rest =>
    (if c0 == '3' && ('0' ≤ c1 && c1 ≤ '1') then [(30 + digVal c1, rest)]
     else if ('1' ≤ c0 && c0 ≤ '2') && c1.isDigit then [(digVal c0 * 10 + digVal c1, rest)]
     else if c0 == '0' && ('1' ≤ c1 && c1 ≤ '9') then [(digVal c1, rest)]
     else []) ++
    (if '1' ≤ c0 && c0 ≤ '9' then [(digVal c0, c1 :: rest)] else [])
  | .d, c0 :: rest =>
    if '1' ≤ c0 && c0 ≤ '9' then [(digVal c0, rest)] else []
  | .d, [] => []
  | .H, c0 :: c1 :: rest =>
    (if c0 == '2' && ('0' ≤ c1 && c1 ≤ '3') then [(20 + digVal c1, rest)]
     else if ('0' ≤ c0 && c0 ≤ '1') && c1.isDigit then [(digVal c0 * 10 + digVal c1, rest)]
     else []) ++
    (if c0.isDigit then [(digVal c0, c1 :: rest)] else [])
  | .H, c0 :: rest =>
    if c0.isDigit then [(digVal c0, rest)] else []
  | .H, [] => []
  | .M, c0 :: c1 :: rest =>
    (if ('0' ≤ c0 && c0 ≤ '5') && c1.isDigit then [(digVal c0 * 10 + digVal c1, rest)]
     else []) ++
    (if c0.isDigit then [(digVal c0, c1 :: rest)] else [])
  | .M, c0 :: rest =>
    if c0.isDigit then [(digVal c0, rest)] else []
  | .M, [] => []
  | .S, c0 :: c1 :: rest =>
    (if c0 == '6' && ('0' ≤ c1 && c1 ≤ '1') then [(60 + digVal c1, rest)]
     else if ('0' ≤ c0 && c0 ≤ '5') && c1.isDigit then [(digVal c0 * 10 + digVal c1, rest)]
     else []) ++
    (if c0.isDigit then [(digVal c0, c1 :: rest)] else [])
  | .S, c0 :: rest =>
    if c0.isDigit then [(digVal c0, rest)] else []
  | .S, [] => []
  | .lit ch, c :: rest =>
    if c.toLower == ch.toLower then [(0, rest)] else []
  | .lit _, [] => []

/-- Regex matching of a whole template against the whole input, with the
backtracking of the compiled alternation (at most two candidates per
directive); a trailing unmatched suffix is a failure (`unconverted data
remains`).  Returns the directive/value assignments. -/
def matchToks : List DTok → List Char → Option (List (DTok × Nat))
  | [], [] => some []
  | [], _ :: _ => none
  | t :: ts, cs =>
    match tokCands t cs with
    | [] => none
    | [(v, r)] => (matchToks ts r).map (fun as => (t, v) :: as)
    | (v1, r1) :: (v2, r2) :: _ =>
      match matchToks ts r1 with
      | some as => some ((t, v1) :: as)
      | none => (matchToks ts r2).map (fun as => (t, v2) :: as)

/-- Fold the matched assignments over strptime's defaults
(year 1900, month 1, day 1, midnight). -/
def applyAssign : List (DTok × Nat) → PyDateTime → PyDateTime
  | [], dt => dt
  | (t, v) :: as, dt =>
    applyAssign as
      (match t with
       | .Y => { dt with year := v }
       | .m => { dt with month := v }
       | .d => { dt with day := v }
       | .H => { dt with hour := v }
       | .M => { dt with minute := v }
       | .S => { dt with second := v }
       | .lit _ => dt)

def isLeap (y : Nat) : Bool := y % 4 == 0 && (y % 100 != 0 || y % 400 == 0)

def daysInMonth (y m : Nat) : Nat :=
  if m == 2 then (if isLeap y then 29 else 28)
  else if m == 4 || m == 6 || m == 9 || m == 11 then 30
  else 31

/-- The `datetime(...)` constructor's range validation (`ValueError` outside). -/
def dtValid (dt : PyDateTime) : Bool :=
  1 ≤ dt.year && dt.year ≤ 9999 && 1 ≤ dt.month && dt.month ≤ 12 &&
  1 ≤ dt.day && dt.day ≤ daysInMonth dt.year dt.month &&
  dt.hour ≤ 23 && dt.minute ≤ 59 && dt.second ≤ 59

/-- `datetime.strptime(s, template)`: `none` models the `ValueError` raised on a
regex mismatch, trailing input, or out-of-range constructed datetime. -/
def strptime (template : List DTok) (s : String) : Option PyDateTime :=
  match matchToks template s.toList with
  | none => none
  | some as =>
    let dt := applyAssign as ⟨1900, 1, 1, 0, 0, 0⟩
    if dtValid dt then some dt else none

/-! ## Validator library (`validators.py`)

Each builder of `ValidatorFactory` closes over its configuration and returns a
predicate.  Predicates that can only return a boolean are embedded as
`PyVal → Bool`; the three builders whose bodies apply `re.match` or
`datetime.strptime` directly to the input are embedded as
`PyVal → Except PyExc Bool`, because those CPython calls raise `TypeError` on a
non-string argument and the builders do not catch it.  A compiled regular
expression applied to strings, and dateutil's `parse` restricted to
success/failure, are total external collaborators, passed as `String → Bool`. -/

/-- `ValidatorFactory.nonempty_validator`: `bool(x)`. -/
def nonempty_validator (x : PyVal) : Bool := pyTruthy x

/-- `ValidatorFactory.value_in_validator(allowed_values)`: `x in allowed_values`. -/
def value_in_validator (allowed : List PyVal) (x : PyVal) : Bool :=
  allowed.any (fun a => pyEq x a)

/-- `ValidatorFactory.float_validator`: `type(x) == np.float64 or type(x) == float`. -/
def float_validator (x : PyVal) : Bool :=
  match x with
  | .npFloat64 _ => true
  | .pyFloat _ => true
  | _ => false

/-- `type(x) == np.int32 or type(x) == int`. -/
def isIntegralType (x : PyVal) : Bool :=
  match x with
  | .npInt32 _ => true
  | .pyInt _ => true
  | _ => false

/-- Python 2 `x < 0`: numeric by value; `None` sorts below all numbers; every
other type sorts above all numbers (so the comparison is `False` for them). -/
def py2LtZero (x : PyVal) : Bool :=
  match pyNum x with
  | some q => q < 0
  | none => x == .pyNone

/-- Python 2 `x == 0`. -/
def py2EqZero (x : PyVal) : Bool := pyEq x (.pyInt 0)

/-- `ValidatorFactory.integer_validator(positive, nonzero)`. -/
def integer_validator (positive nonzero : Bool) (x : PyVal) : Bool :=
  let valid := isIntegralType x
  let valid := if positive && py2LtZero x then false else valid
  let valid := if nonzero && py2EqZero x then false else valid
  valid

/-- `ValidatorFactory.string_validator(regex)`: the type test is total, but when
a regex was supplied the body calls `re.match(regex, x)` on the raw input, and
CPython raises `TypeError: expected string or buffer` for non-text `x`. -/
def string_validator (regex : Option (String → Bool)) (x : PyVal) : Except PyExc Bool :=
  let valid := (pyText x).isSome
  match regex with
  | none => .ok valid
  | some rm =>
    match pyText x with
    | some s => .ok (if !rm s then false else valid)
    | none => .error (.typeError "expected string or buffer")

def calendarNames : List String :=
  ["gregorian", "standard", "proleptic_gregorian", "noleap", "365_day",
   "all_leap", "366_day", "360_day", "julian", "none"]

def isDateRangeChar (c : Char) : Bool := c.isDigit || c == '-'

def charsHaveA : List Char → List Char → Option (List Char)
  | [], cs => some cs
  | p :: ps, c :: cs => if p == c then charsHaveA ps cs else none
  | _ :: _, [] => none

/-- The calendar regex of `calendar_validator`: on success returns the date
group (`[\d\-]+`).  The pattern is anchored at both ends; the date group is a
maximal digit/hyphen run (backtracking cannot help since the following
character must be a space). -/
def calendarMatch (s : String) : Option String :=
  match charsHaveA "days since ".toList s.toList with
  | none => none
  | some rest =>
    let dchars := rest.takeWhile isDateRangeChar
    let r2 := rest.dropWhile isDateRangeChar
    if dchars.isEmpty then none
    else
      match charsHaveA [' ', '['] r2 with
      | none => none
      | some r3 =>
        if calendarNames.any (fun n => r3 == n.toList ++ [']']) then
          some (String.mk dchars)
        else none

/-- `ValidatorFactory.calendar_validator`: `re.match` on a non-text value raises
`TypeError`; on text, a regex failure is `False`, otherwise dateutil's `parse`
decides (its `TypeError`/`ValueError` are caught).  `dparse` is the external
dateutil collaborator: whether the date group parses. -/
def calendar_validator (dparse : String → Bool) (x : PyVal) : Except PyExc Bool :=
  match pyText x with
  | none => .error (.typeError "expected string or buffer")
  | some s =>
    match calendarMatch s with
    | none => .ok false
    | some dg => .ok (dparse dg)

/-- `ValidatorFactory.date_validator(template)`: `datetime.strptime` raises
`TypeError` on a non-text value (only `ValueError` is caught). -/
def date_validator (template : List DTok) (x : PyVal) : Except PyExc Bool :=
  match pyText x with
  | none => .error (.typeError "strptime argument must be a string")
  | some s => .ok (strptime template s).isSome

/-! ## Controlled-vocabulary source and the term-validation cache (`cmip6.py`)

pyessv is the external CV collaborator: a scope maps collection names to term
lists, each term exposing three textual representations.  `CMIP6Check.__cache`
holds `validated[term_type][collection][term]`, a memo of tri-state results
(`some true` / `some false` member answers, `none` for an unknown collection,
mirroring Python's `True` / `False` / `None`). -/

/-- A pyessv term: three textual views of the same CV entry. -/
structure CVTerm where
  canonical_name : String
  label : String
  raw_name : String
deriving DecidableEq

/-- The `term_type` argument of `_validate_term` (`getattr(trm, term_type)`). -/
inductive TermKind where
  | canonical_name
  | label
  | raw_name
deriving DecidableEq

def termAttr : TermKind → CVTerm → String
  | .canonical_name, t => t.canonical_name
  | .label, t => t.label
  | .raw_name, t => t.raw_name

/-- The CV scope, `pyessv.load("wcrp:cmip6")`: collection name to term list. -/
abbrev CVScope := List (String × List CVTerm)

/-- `term in [getattr(trm, term_type) for trm in terms]` with Python equality. -/
def termsContain (k : TermKind) (terms : List CVTerm) (term : PyVal) : Bool :=
  terms.any (fun t => pyEq term (.pyStr (termAttr k t)))

/-- The memo-free value `_validate_term` computes for a key: membership under
the representation kind, or `none` when the collection is unknown to the scope
(`collection in scope` false / `scope[collection]` raising `ValueError`). -/
def validate_term_pure (scope : CVScope) (k : TermKind) (collection : String)
    (term : PyVal) : Option Bool :=
  match scope.lookup collection with
  | some terms => some (termsContain k terms term)
  | none => none

/-- One inner memo dict, term to cached tri-state result. -/
abbrev TermMap := List (PyVal × Option Bool)

/-- One per-kind memo dict, collection to `TermMap`. -/
abbrev CollMap := List (String × TermMap)

/-- Python dict assignment `d[k] = v` on an association list. -/
def aset {α β : Type} [BEq α] : List (α × β) → α → β → List (α × β)
  | [], k, v => [(k, v)]
  | (k', v') :: rest, k, v =>
    if k' == k then (k, v) :: rest else (k', v') :: aset rest k v

/-- `__cache["validated"]`: one memo dict per representation kind. -/
structure TermCache where
  canonical_name : CollMap
  label : CollMap
  raw_name : CollMap
deriving DecidableEq

def emptyTermCache : TermCache := ⟨[], [], []⟩

def TermCache.kindMap : TermCache → TermKind → CollMap
  | c, .canonical_name => c.canonical_name
  | c, .label => c.label
  | c, .raw_name => c.raw_name

def TermCache.setKind : TermCache → TermKind → CollMap → TermCache
  | c, .canonical_name, m => { c with canonical_name := m }
  | c, .label, m => { c with label := m }
  | c, .raw_name, m => { c with raw_name := m }

/-- The cached tri-state result for a key, when an entry exists. -/
def lookupCache (c : TermCache) (k : TermKind) (collection : String)
    (term : PyVal) : Option (Option Bool) :=
  match (c.kindMap k).lookup collection with
  | none => none
  | some tm => tm.lookup term

/-- `CMIP6Check._validate_term`, with the cache threaded explicitly.  The third
component counts accesses to the CV scope (0 on a memo hit).  Branches mirror
the source: a known collection dict with a term hit returns the memo; a miss
computes and stores (the `except ValueError` arm is the unknown-collection
case); a fresh collection dict is created (`= {}`) and its single term entry
written, `none` when the collection is not in the scope. -/
def validate_term (scope : CVScope) (cache : TermCache) (k : TermKind)
    (collection : String) (term : PyVal) : Option Bool × TermCache × Nat :=
  let cm := cache.kindMap k
  match cm.lookup collection with
  | some tm =>
    match tm.lookup term with
    | some r => (r, cache, 0)
    | none =>
      match scope.lookup collection with
      | some terms =>
        let r := some (termsContain k terms term)
        (r, cache.setKind k (aset cm collection (aset tm term r)), 1)
      | none =>
        (none, cache.setKind k (aset cm collection (aset tm term none)), 1)
  | none =>
    match scope.lookup collection with
    | some terms =>
      let r := some (termsContain k terms term)
      (r, cache.setKind k (aset cm collection [(term, r)]), 1)
    | none =>
      (none, cache.setKind k (aset cm collection [(term, none)]), 1)

/-! ## Table index (`mip_tables.py`) -/

/-- One field map of a `variable_entry` item. -/
abbrev VarFields := List (String × PyVal)

/-- The decoded content of one file in the tables directory: not valid JSON
(`json.load` raises `ValueError`, swallowed), valid JSON without a `Header`
key, or a per-variable-group table. -/
inductive TableJSON where
  | malformed
  | noHeader
  | table (table_id : String) (data_specs_version : String)
      (variable_entry : List (String × VarFields))
deriving DecidableEq

def TableJSON.isTable : TableJSON → Bool
  | .table _ _ _ => true
  | _ => false

def TableJSON.ver : TableJSON → Option String
  | .table _ v _ => some v
  | _ => none

/-- The `MipTables` object state. -/
structure MipTables where
  tables : List (String × List (String × VarFields))
  table_list : List String
  version : Option String
deriving DecidableEq

/-- One iteration of the load loop: malformed JSON is swallowed, a missing
`Header` is skipped, otherwise the table name (`table_id[6:]`) is appended,
the version captured first-wins, and the variable entries indexed. -/
def load_step (st : MipTables) (f : String × TableJSON) : MipTables :=
  match f.2 with
  | .malformed => st
  | .noHeader => st
  | .table tid ver ve =>
    { tables := aset st.tables (String.mk (tid.toList.drop 6)) ve
      table_list := st.table_list ++ [String.mk (tid.toList.drop 6)]
      version := match st.version with
                 | none => some ver
                 | some v => some v }

/-- `MipTables._load_tables_from_directory`: the reserved CV-definition file is
excluded from the scan, then each remaining file is processed in order. -/
def load_tables_from_directory (files : List (String × TableJSON)) : MipTables :=
  (files.filter (fun f => f.1 != "CMIP6_CV.json")).foldl load_step ⟨[], [], none⟩

/-- `MipTables.get_variables_from_table`: `self._tables[table_name].keys()`,
`KeyError` on an unknown table. -/
def get_variables_from_table (mt : MipTables) (name : String) :
    Except PyExc (List String) :=
  match mt.tables.lookup name with
  | some ve => .ok (ve.map (fun p => p.1))
  | none => .error (.keyError name)

/-! ## The netCDF dataset collaborator -/

/-- A netCDF variable: its attributes and its data values. -/
structure NCVar where
  attrs : List (String × PyVal)
  data : List PyVal
deriving DecidableEq

/-- An open netCDF dataset handle: path, global attributes, variables. -/
structure Dataset where
  filepath : String
  attrs : List (String × PyVal)
  vars : List (String × NCVar)
deriving DecidableEq

/-- `ds.getncattr(name)` / `getattr(ds, name)`: raises `AttributeError` when
the attribute is absent. -/
def getncattr (ds : Dataset) (name : String) : Except PyExc PyVal :=
  match ds.attrs.lookup name with
  | some v => .ok v
  | none => .error (.attributeError name)

/-- `hasattr(ds, name)` (netCDF4 exposes nc attributes through `__getattr__`). -/
def hasattrD (ds : Dataset) (name : String) : Bool :=
  (ds.attrs.lookup name).isSome

/-- First value of the named time coordinate, `ds.variables["time"][0]`. -/
def timeHead (ds : Dataset) : Option PyVal :=
  (ds.vars.lookup "time").bind (fun v => v.data.head?)

/-! ## Date-range parsing (`get_datetime_template`, `parse_date_range`) -/

def tY : List DTok := [.Y]
def tYM : List DTok := [.Y, .m]
def tYMD : List DTok := [.Y, .m, .d]
def tYMDHM : List DTok := [.Y, .m, .d, .H, .M]
def tYMDHMS : List DTok := [.Y, .m, .d, .H, .M, .S]

/-- `get_datetime_template(frequency)`: the frequency-keyed template table;
a frequency outside the table raises `ValueError`. -/
def get_datetime_template (frequency : String) : Except PyExc (List DTok) :=
  if frequency == "yr" then .ok tY
  else if frequency == "yrPt" then .ok tY
  else if frequency == "dec" then .ok tY
  else if frequency == "mon" then .ok tYM
  else if frequency == "monC" then .ok tYM
  else if frequency == "monPt" then .ok tYM
  else if frequency == "day" then .ok tYMD
  else if frequency == "6hr" then .ok tYMDHM
  else if frequency == "6hrPt" then .ok tYMDHM
  else if frequency == "3hr" then .ok tYMDHM
  else if frequency == "3hrPt" then .ok tYMDHM
  else if frequency == "1hr" then .ok tYMDHM
  else if frequency == "1hrCM" then .ok tYMDHM
  else if frequency == "1hrPt" then .ok tYMDHM
  else if frequency == "subhr" then .ok tYMDHMS
  else if frequency == "subhrPt" then .ok tYMDHMS
  else if frequency == "fx" then .ok []
  else .error (.valueError ("Wrong variable frequency " ++ frequency))

/-- The 17 frequencies of the template table. -/
def knownFrequencies : List String :=
  ["yr", "yrPt", "dec", "mon", "monC", "monPt", "day", "6hr", "6hrPt", "3hr",
   "3hrPt", "1hr", "1hrCM", "1hrPt", "subhr", "subhrPt", "fx"]

/-- `parse_date_range(daterange, frequency)`.  `fx` returns `None` (no range);
otherwise the daterange is split on `-` (a missing second component raises
`IndexError`), both endpoints are parsed with the frequency's template
(`ValueError` on failure, also for a frequency outside the table, including a
non-string frequency value), and an end point not strictly after the start
raises a bare `Exception`. -/
def parse_date_range (daterange : String) (frequency : PyVal) :
    Except PyExc (Option (PyDateTime × PyDateTime)) :=
  if pyEq frequency (.pyStr "fx") then .ok none
  else
    let dateparts := strSplit '-' daterange
    let d1 := dateparts.headD ""
    match dateparts.get? 1 with
    | none => .error (.indexError "list index out of range")
    | some d2 =>
      match (match pyText frequency with
             | some f => get_datetime_template f
             | none => Except.error (.valueError "Wrong variable frequency")) with
      | .error e => .error e
      | .ok tmpl =>
        match strptime tmpl d1 with
        | none => .error (.valueError ("time data " ++ d1 ++ " does not match format"))
        | some dt1 =>
          match strptime tmpl d2 with
          | none => .error (.valueError ("time data " ++ d2 ++ " does not match format"))
          | some dt2 =>
            if dtLe dt2 dt1 then
              .error (.exception (d2 ++ " cannot be earlier than " ++ d1))
            else .ok (some (dt1, dt2))

/-! ## `CMIP6Check.check_filename` -/

/-- The result container, `compliance_checker.base.Result`. -/
structure CheckResult where
  level : Nat
  score : Nat
  out_of : Nat
  name : String
  messages : List String
deriving DecidableEq

/-- `BaseCheck.MEDIUM`. -/
def MEDIUM : Nat := 2

/-- `BaseCheck.HIGH`. -/
def HIGH : Nat := 3

/-- `CMIP6Check.make_result`. -/
def make_result (level score out_of : Nat) (name : String)
    (messages : List String) : CheckResult :=
  ⟨level, score, out_of, name, messages⟩

/-- `os.path.basename`. -/
def basename (p : String) : String := (strSplit '/' p).getLastD ""

/-- `filename.split('.')[0].split('_')`. -/
def filenameParts (filename : String) : List String :=
  strSplit '_' ((strSplit '.' filename).headD "")

/-- `cv.replace('-', '_')`. -/
def underscored (s : String) : String :=
  String.mk (s.toList.map (fun c => if c == '-' then '_' else c))

/-- Rendering of a value into a format string, `str(x)`. -/
def pyFormat : PyVal → String
  | .pyStr s => s
  | .pyUnicode s => s
  | .pyInt n => toString n
  | .npInt32 n => toString n
  | .pyFloat q => toString q
  | .npFloat64 q => toString q
  | .npFloat32 q => toString q
  | .pyNone => "None"

def invalidTermMsg (cv filename : String) : String :=
  "Invalid term " ++ cv ++ " in the filename " ++ filename

def attrMismatchMsg (attr : PyVal) (cv filename : String) : String :=
  "Value " ++ pyFormat attr ++ " of the attribute " ++ cv ++
    " doesn\x27t match filename " ++ filename

def invalidVariantMsg (m0 : String) : String := "Invalid variant_label " ++ m0

def variantMismatchMsg (m0 : String) (vl : PyVal) : String :=
  "Variant label " ++ m0 ++ " is not consistent with file contents (" ++
    pyFormat vl ++ ")"

def invalidDaterangeMsg (daterange : String) (e : PyExc) : String :=
  "Invalid daterange " ++ daterange ++ " (" ++ e.message ++ ")"

/-- The `template_dict` facet map of `check_filename`, in source order. -/
def template_dict : List (String × Nat) :=
  [("table-id", 1), ("source-id", 2), ("experiment-id", 3), ("grid-label", 5)]

/-- One iteration of the CV-facet loop of `check_filename`: the lowered facet
is validated against its collection (a `False` or `None` result records a
message and invalidates); only when membership holds is the stored global
attribute fetched (`AttributeError` propagates) and compared, case-sensitively,
to the literal facet.  State is (messages, valid_filename). -/
def cv_facet_step (scope : CVScope) (ds : Dataset) (filename : String)
    (parts : List String) (st : List String × Bool) (cv : String × Nat) :
    Except PyExc (List String × Bool) :=
  match parts.get? cv.2 with
  | none => .error (.indexError "list index out of range")
  | some facet =>
    match validate_term_pure scope .canonical_name cv.1 (.pyStr (strLower facet)) with
    | some true =>
      match getncattr ds (underscored cv.1) with
      | .error e => .error e
      | .ok attr =>
        if !pyEq attr (.pyStr facet) then
          .ok (st.1 ++ [attrMismatchMsg attr cv.1 filename], false)
        else .ok st
    | _ => .ok (st.1 ++ [invalidTermMsg cv.1 filename], false)

/-- The sub-experiment part of the member-id handling: when the member-id
facet has a second component it is validated against the `experiment-id`
collection (the source passes that collection name; only the message mentions
`sub_experiment_id`). -/
def sub_experiment_step (scope : CVScope) (filename : String)
    (memberParts : List String) (st : List String × Bool) : List String × Bool :=
  if memberParts.length > 1 then
    match validate_term_pure scope .canonical_name "experiment-id"
        (.pyStr (memberParts.getD 1 "")) with
    | some true => st
    | _ => (st.1 ++ [invalidTermMsg "sub_experiment_id" filename], false)
  else st

/-- `^r\d+i\d+p\d+f\d+$`. -/
def takeDigits1 : List Char → Option (List Char)
  | c :: cs => if c.isDigit then some (cs.dropWhile Char.isDigit) else none
  | [] => none

def isVariantLabel (s : String) : Bool :=
  match s.toList with
  | 'r' :: rest =>
    match takeDigits1 rest with
    | some ('i' :: r2) =>
      (match takeDigits1 r2 with
       | some ('p' :: r3) =>
         (match takeDigits1 r3 with
          | some ('f' :: r4) =>
            (match takeDigits1 r4 with
             | some [] => true
             | _ => false)
          | _ => false)
       | _ => false)
    | _ => false
  | _ => false

/-- The variant-label part of the member-id handling: a pattern mismatch
invalidates with a message; on a match the stored `variant_label` attribute is
fetched (`AttributeError` propagates) and compared. -/
def variant_label_step (ds : Dataset) (memberParts : List String)
    (st : List String × Bool) : Except PyExc (List String × Bool) :=
  let m0 := memberParts.headD ""
  if !isVariantLabel m0 then
    .ok (st.1 ++ [invalidVariantMsg m0], false)
  else
    match getncattr ds "variant_label" with
    | .error e => .error e
    | .ok vl =>
      if !pyEq vl (.pyStr m0) then
        .ok (st.1 ++ [variantMismatchMsg m0 vl], false)
      else .ok st

/-- Lines 279-293 of `check_filename`: split the member-id facet on `-`, then
the sub-experiment and variant-label checks. -/
def member_id_step (scope : CVScope) (ds : Dataset) (filename : String)
    (memberParts : List String) (st : List String × Bool) :
    Except PyExc (List String × Bool) :=
  variant_label_step ds memberParts (sub_experiment_step scope filename memberParts st)

/-- Lines 295-297: when the table-id facet names a loaded table and the
variable-id facet is not among its variables, the filename is invalidated
with no message. -/
def table_membership_step (mt : MipTables) (parts : List String)
    (st : List String × Bool) : Except PyExc (List String × Bool) :=
  match parts.get? 1 with
  | none => .error (.indexError "list index out of range")
  | some p1 =>
    if mt.table_list.contains p1 then
      match get_variables_from_table mt p1 with
      | .error e => .error e
      | .ok vars =>
        if !(vars.contains (parts.headD "")) then .ok (st.1, false) else .ok st
    else .ok st

/-- Lines 299-307: for a seven-facet filename the frequency attribute is
fetched and the date range parsed inside a catch-all; any exception (a missing
frequency, an unknown frequency, a parse failure, an inverted range, or the
`TypeError` from unpacking the `None` returned for `fx`) appends a message and
invalidates. -/
def daterange_step (ds : Dataset) (part6 : String) (st : List String × Bool) :
    List String × Bool :=
  let attempt : Except PyExc (PyDateTime × PyDateTime) :=
    match getncattr ds "frequency" with
    | .error e => .error e
    | .ok freq =>
      match parse_date_range part6 freq with
      | .ok (some p) => .ok p
      | .ok none => .error (.typeError "NoneType object is not iterable")
      | .error e => .error e
  match attempt with
  | .ok _ => st
  | .error e => (st.1 ++ [invalidDaterangeMsg part6 e], false)

/-- `CMIP6Check.check_filename`.  Term validation is evaluated against the CV
scope directly (`validate_term_pure`); `validate_term` is proved elsewhere to
return exactly this value through the memo.  The CV-facet loop iterates
`template_dict` in source order. -/
def check_filename (scope : CVScope) (mt : MipTables) (ds : Dataset) :
    Except PyExc CheckResult := do
  let filename := basename ds.filepath
  let parts := filenameParts filename
  let st0 ← template_dict.foldlM (cv_facet_step scope ds filename parts) ([], true)
  let st1 ←
    match parts.get? 4 with
    | none => Except.error (PyExc.indexError "list index out of range")
    | some m4 => member_id_step scope ds filename (strSplit '-' m4) st0
  let st2 ← table_membership_step mt parts st1
  let st3 := if parts.length == 7 then daterange_step ds (parts.getD 6 "") st2 else st2
  let score := if st3.2 then 1 else 0
  pure (make_result MEDIUM score 1 "DRS template check" st3.1)

/-! ## The parent-provenance slice of `CMIP6Check.check_global_attributes`
(lines 493-554), with the error counter and message list as explicit state. -/

structure GAState where
  errors : Nat
  messages : List String
deriving DecidableEq

def eavMsg (attr : String) : String :=
  "Attribute " ++ attr ++ " must exist and have a proper value"

def dnevMsg (attr : String) : String :=
  "Attribute " ++ attr ++ " needs to have a valid value or be omitted"

def missingAttrMsg (attr : String) : String :=
  "Attribute " ++ attr ++ " is missing from the ncdf file"

def unknownCollMsg (collection : String) : String :=
  "Unknown CV collection type " ++ collection

def illegalValueMsg (attr : String) (item : PyVal) : String :=
  "Attribute " ++ attr ++ " has illegal value " ++ pyFormat item

/-- Lift a boolean validator into the raising validator interface. -/
def liftV (f : PyVal → Bool) : PyVal → Except PyExc Bool := fun v => .ok (f v)

/-- `CMIP6Check._does_not_exist_or_valid`: an exception raised by the
validator propagates. -/
def does_not_exist_or_valid (ds : Dataset) (attr : String)
    (validator : PyVal → Except PyExc Bool) (st : GAState) :
    Except PyExc GAState :=
  match ds.attrs.lookup attr with
  | none => .ok st
  | some v =>
    match validator v with
    | .error e => .error e
    | .ok b =>
      if !b then .ok ⟨st.errors + 1, st.messages ++ [dnevMsg attr]⟩ else .ok st

/-- `CMIP6Check._exists_and_valid`. -/
def exists_and_valid (ds : Dataset) (attr : String)
    (validator : PyVal → Except PyExc Bool) (st : GAState) :
    Except PyExc GAState :=
  match ds.attrs.lookup attr with
  | none => .ok ⟨st.errors + 1, st.messages ++ [eavMsg attr]⟩
  | some v =>
    match validator v with
    | .error e => .error e
    | .ok b =>
      if !b then .ok ⟨st.errors + 1, st.messages ++ [eavMsg attr]⟩ else .ok st

/-- `CMIP6Check._validate_cv_attribute`: the catch-all only ever fires on the
attribute fetch; an unknown collection (`None`) appends both the
unknown-collection and the illegal-value message, each with an error. -/
def validate_cv_attribute (scope : CVScope) (ds : Dataset) (collection : String)
    (nc_name : Option String) (st : GAState) : GAState :=
  let nc := nc_name.getD (underscored collection)
  match ds.attrs.lookup nc with
  | none => ⟨st.errors + 1, st.messages ++ [missingAttrMsg nc]⟩
  | some item =>
    let validate := validate_term_pure scope .label collection item
    let st1 :=
      if validate == none then
        ⟨st.errors + 1, st.messages ++ [unknownCollMsg collection]⟩
      else st
    if validate != some true then
      ⟨st1.errors + 1, st1.messages ++ [illegalValueMsg nc item]⟩
    else st1

/-- `PARENT_ATTRIBUTES` (the source lists `parent_source_id` twice). -/
def PARENT_ATTRIBUTES : List String :=
  ["branch_method", "parent_activity_id", "parent_experiment_id",
   "parent_mip_era", "parent_source_id", "parent_time_units",
   "parent_source_id"]

def timeVarMsg : String := "Unable to retrieve time variable"

/-- Lines 535-554, the no-parent branch: the time fetch and the
`branch_time_in_child` check sit in a catch-all whose handler appends a
message with no error increment; `branch_time_in_parent` must be 0.0 if
present; every parent-cluster attribute must be absent or the sentinel. -/
def no_parent_checks (ds : Dataset) (st : GAState) : GAState :=
  let st1 :=
    match timeHead ds with
    | none => ⟨st.errors, st.messages ++ [timeVarMsg]⟩
    | some t0 =>
      match does_not_exist_or_valid ds "branch_time_in_child"
          (liftV (value_in_validator [t0])) st with
      | .ok s => s
      | .error _ => ⟨st.errors, st.messages ++ [timeVarMsg]⟩
  let st2 :=
    match does_not_exist_or_valid ds "branch_time_in_parent"
        (liftV (value_in_validator [.pyFloat 0])) st1 with
    | .ok s => s
    | .error _ => st1
  PARENT_ATTRIBUTES.foldl
    (fun s a =>
      match does_not_exist_or_valid ds a
          (liftV (value_in_validator [.pyStr "no parent"])) s with
      | .ok s' => s'
      | .error _ => s)
    st2

def startsDaysSince (s : String) : Bool :=
  (charsHaveA "days since".toList s.toList).isSome

/-- Lines 504-534, the parent branch after the `branch_method` check.
`source_id_attr` is `attr_dict["source_id"]` (populated earlier; `None` when
retrieval failed).  The two `string_validator` steps can raise `TypeError` on
a non-text stored value, and that exception propagates out of the check. -/
def has_parent_rest (scope : CVScope) (ds : Dataset) (source_id_attr : PyVal)
    (st : GAState) : Except PyExc GAState := do
  let st ← exists_and_valid ds "branch_time_in_child" (liftV float_validator) st
  let st ← exists_and_valid ds "branch_time_in_parent" (liftV float_validator) st
  let st := validate_cv_attribute scope ds "activity-id" (some "parent_activity_id") st
  let st := validate_cv_attribute scope ds "experiment-id" (some "parent_experiment_id") st
  let st ← exists_and_valid ds "parent_mip_era"
    (liftV (value_in_validator [.pyStr "CMIP6"])) st
  let st := validate_cv_attribute scope ds "source-id" (some "parent_source_id") st
  let st ← exists_and_valid ds "parent_source_id"
    (liftV (value_in_validator [source_id_attr])) st
  let st ← exists_and_valid ds "parent_time_units"
    (string_validator (some startsDaysSince)) st
  let st ← exists_and_valid ds "parent_variant_label"
    (string_validator (some isVariantLabel)) st
  pure st

/-- Lines 501-534, the parent branch: the `branch_method` presence check
(`nonempty`), then the remaining parent-cluster checks. -/
def has_parent_checks (scope : CVScope) (ds : Dataset) (source_id_attr : PyVal)
    (st : GAState) : Except PyExc GAState :=
  (exists_and_valid ds "branch_method" (liftV nonempty_validator) st).bind
    (has_parent_rest scope ds source_id_attr)

/-- Lines 493-554 of `check_global_attributes`: decide whether a parent is
declared (`parent_experiment_id` absent, or equal to the sentinel, means no
parent); with a parent, `parent_experiment_id` is first validated as an
`experiment-id` CV term and the parent cluster checked; without one, the
no-parent cluster is checked. -/
def parent_section (scope : CVScope) (ds : Dataset) (source_id_attr : PyVal)
    (st : GAState) : Except PyExc GAState :=
  match ds.attrs.lookup "parent_experiment_id" with
  | none => .ok (no_parent_checks ds st)
  | some v =>
    if pyEq v (.pyStr "no parent") then .ok (no_parent_checks ds st)
    else
      has_parent_checks scope ds source_id_attr
        (validate_cv_attribute scope ds "experiment-id"
          (some "parent_experiment_id") st)

/-! ## Concrete fixtures used by the witnesses and counterexamples below -/

/-- A small CV scope: one term per collection, lower-case canonical names and
mixed-case labels/raw names, as in the WCRP CMIP6 vocabulary. -/
def scopeW : CVScope :=
  [("table-id", [⟨"amon", "Amon", "Amon"⟩]),
   ("source-id", [⟨"modelx", "ModelX", "ModelX"⟩]),
   ("experiment-id", [⟨"picontrol", "piControl", "piControl"⟩]),
   ("grid-label", [⟨"gn", "gn", "gn"⟩])]

/-- A tables directory: the reserved CV file, one malformed file, one table
defining only the variable `pr` for table `Amon`. -/
def filesW : List (String × TableJSON) :=
  [("CMIP6_CV.json", .table "CMIP6_CV" "99.99.99" []),
   ("broken.json", .malformed),
   ("CMIP6_Amon.json", .table "CMIP6_Amon" "01.00.29" [("pr", [])])]

def mtW : MipTables := load_tables_from_directory filesW

/-- A dataset whose filename facets all pass and whose stored attributes match. -/
def dsPass : Dataset :=
  { filepath := "/data/pr_Amon_ModelX_piControl_r1i1p1f1_gn.nc"
    attrs := [("table_id", .pyStr "Amon"), ("source_id", .pyStr "ModelX"),
              ("experiment_id", .pyStr "piControl"), ("grid_label", .pyStr "gn"),
              ("variant_label", .pyStr "r1i1p1f1")]
    vars := [] }

/-- Like `dsPass` but named for the variable `tas`, which table `Amon` of
`mtW` does not define. -/
def dsUnknownVar : Dataset :=
  { dsPass with filepath := "/data/tas_Amon_ModelX_piControl_r1i1p1f1_gn.nc" }

/-- Like `dsPass` but with the `table_id` global attribute removed. -/
def dsMissingTableId : Dataset :=
  { dsPass with attrs := dsPass.attrs.filter (fun p => p.1 != "table_id") }

/-- A scope whose `table-id` collection is empty, so the table-id facet fails
CV membership. -/
def scopeEmptyTable : CVScope :=
  [("table-id", []),
   ("source-id", [⟨"modelx", "ModelX", "ModelX"⟩]),
   ("experiment-id", [⟨"picontrol", "piControl", "piControl"⟩]),
   ("grid-label", [⟨"gn", "gn", "gn"⟩])]

/-- Like `dsPass` but with a `table_id` attribute that does not match the
filename facet either. -/
def dsTableMismatch : Dataset :=
  { dsPass with
      attrs := ("table_id", .pyStr "Omon") :: dsPass.attrs.tail }

/-- `scopeW` extended with a sub-experiment collection holding `s1920`. -/
def scopeSub : CVScope :=
  scopeW ++ [("sub-experiment-id", [⟨"s1920", "s1920", "s1920"⟩])]

/-- Like `dsPass` but with member-id facet `r1i1p1f1-s1920`. -/
def dsSubExp : Dataset :=
  { dsPass with filepath := "/data/pr_Amon_ModelX_piControl_r1i1p1f1-s1920_gn.nc" }

/-- A seven-facet filename with frequency `fx`, otherwise fully valid. -/
def dsFx : Dataset :=
  { dsPass with
      filepath := "/data/pr_Amon_ModelX_piControl_r1i1p1f1_gn_185001-185912.nc"
      attrs := dsPass.attrs ++ [("frequency", .pyStr "fx")] }

/-- No parent declared, all parent-cluster attributes absent,
`branch_time_in_parent` absent, but `branch_time_in_child` present and unequal
to the first time value. -/
def dsBranchChild : Dataset :=
  { filepath := ""
    attrs := [("branch_time_in_child", .pyFloat 5)]
    vars := [("time", ⟨[], [.pyFloat 3]⟩)] }

/-- Parent sentinel present, nothing else. -/
def dsNoParent : Dataset :=
  { filepath := ""
    attrs := [("parent_experiment_id", .pyStr "no parent")]
    vars := [] }

/-- A real parent experiment declared, `branch_method` absent. -/
def dsParentNoBranch : Dataset :=
  { filepath := ""
    attrs := [("parent_experiment_id", .pyStr "piControl")]
    vars := [] }

/-- The cache state after one lookup of `amon` in `table-id`. -/
def cacheW : TermCache :=
  (validate_term scopeW emptyTermCache .canonical_name "table-id"
      (.pyStr "amon")).2.1

/-- The mathematical integer carried by an integral-typed value. -/
def pyIntOf : PyVal → Option Int
  | .pyInt n => some n
  | .npInt32 n => some n
  | _ => none

/-! ## Supporting lemmas -/

theorem lookup_aset_self {α β : Type} [BEq α] [LawfulBEq α]
    (l : List (α × β)) (k : α) (v : β) : (aset l k v).lookup k = some v := by
  induction l with
  | nil => simp [aset, List.lookup]
  | cons h t ih =>
    obtain ⟨k', v'⟩ := h
    by_cases hk : k' = k
    · subst hk; simp [aset, List.lookup]
    · have hke : (k == k') = false := beq_eq_false_iff_ne.mpr (Ne.symm hk)
      simp [aset, List.lookup, hk, hke, ih]

theorem lookup_aset_ne {α β : Type} [BEq α] [LawfulBEq α]
    (l : List (α × β)) (k k' : α) (v : β) (h : k' ≠ k) :
    (aset l k v).lookup k' = l.lookup k' := by
  induction l with
  | nil =>
    have hke : (k' == k) = false := beq_eq_false_iff_ne.mpr h
    simp [aset, List.lookup, hke]
  | cons hd t ih =>
    obtain ⟨ka, va⟩ := hd
    by_cases hk : ka = k
    · subst hk
      have hke : (k' == ka) = false := beq_eq_false_iff_ne.mpr h
      simp [aset, List.lookup, hke]
    · simp [aset, List.lookup, hk, ih]

theorem kindMap_setKind (c : TermCache) (k : TermKind) (m : CollMap) :
    (c.setKind k m).kindMap k = m := by
  cases k <;> rfl

/-! ## Claim C3 -/

/-- Claim C3, counterexample: the regex-bearing string validator, the calendar
validator and the date validator are not total across runtime types: applied
to a non-text value each raises `TypeError` (CPython's `re.match` and
`datetime.strptime` reject non-string input, and the builders catch only
`ValueError`, or `TypeError` merely around the inner dateutil call). -/
theorem c3_counterexample :
    string_validator (some isVariantLabel) (.pyInt 42)
      = .error (.typeError "expected string or buffer") ∧
    calendar_validator (fun _ => true) (.pyFloat 1)
      = .error (.typeError "expected string or buffer") ∧
    date_validator tYM (.pyInt 42)
      = .error (.typeError "strptime argument must be a string") :=
  ⟨rfl, rfl, rfl⟩

/-- Claim C3, amended: the nonempty, value-membership, float and integer
predicates are total by construction (they are boolean functions of the
value); the string validator without a regex is also total; the string
validator with a regex, the calendar validator and the date validator return a
boolean exactly on text input and raise `TypeError` on every non-text input. -/
theorem c3_validator_totality :
    (∀ x : PyVal, (string_validator none x).isOk = true) ∧
    (∀ (rm : String → Bool) (x : PyVal),
      (string_validator (some rm) x).isOk = (pyText x).isSome) ∧
    (∀ (dp : String → Bool) (x : PyVal),
      (calendar_validator dp x).isOk = (pyText x).isSome) ∧
    (∀ (t : List DTok) (x : PyVal),
      (date_validator t x).isOk = (pyText x).isSome) := by
  refine ⟨?_, ?_, ?_, ?_⟩
  · intro x; cases x <;> rfl
  · intro rm x; cases x <;> simp [string_validator, pyText, Except.isOk, Except.toBool]
  · intro dp x
    cases x <;>
      simp [calendar_validator, pyText, Except.isOk, Except.toBool] <;>
      rename_i s <;> cases calendarMatch s <;> simp [Except.isOk, Except.toBool]
  · intro t x; cases x <;> simp [date_validator, pyText, Except.isOk, Except.toBool]

/-! ## Claim C9 -/

/-- Claim C9: `integer_validator positive nonzero` accepts exactly the
integral-typed values (`int`, `np.int32`); under `positive` the value must be
non-negative, under `nonzero` it must be non-zero; numeric strings and floats
are rejected whatever their value; and the four policy combinations behave on
the test inputs as the claim lists. -/
theorem c9_integer_validator :
    (∀ (p nz : Bool) (v : PyVal),
      integer_validator p nz v = true ↔
        ∃ n : Int, pyIntOf v = some n ∧ (p = true → 0 ≤ n) ∧
          (nz = true → n ≠ 0)) ∧
    integer_validator true true (.pyInt 5) = true ∧
    integer_validator true true (.npInt32 4) = true ∧
    integer_validator true true (.pyInt 0) = false ∧
    integer_validator true true (.pyInt (-4)) = false ∧
    integer_validator true true (.pyFloat (1 / 2)) = false ∧
    integer_validator true true (.npFloat64 1) = false ∧
    integer_validator true true (.pyStr "1") = false ∧
    integer_validator false true (.pyInt (-1)) = true ∧
    integer_validator true false (.pyInt 0) = true := by
  refine ⟨?_, by decide, by decide, by decide, by decide,
    by simp [integer_validator, isIntegralType], by decide,
    by decide, by decide, by decide⟩
  intro p nz v
  cases v with
  | pyInt n =>
    cases p <;> cases nz <;>
      simp [integer_validator, isIntegralType, py2LtZero, py2EqZero, pyEq,
        pyNum, pyText, pyIntOf, Int.cast_lt_zero] <;>
      omega
  | npInt32 n =>
    cases p <;> cases nz <;>
      simp [integer_validator, isIntegralType, py2LtZero, py2EqZero, pyEq,
        pyNum, pyText, pyIntOf, Int.cast_lt_zero] <;>
      omega
  | pyFloat q =>
    simp [integer_validator, isIntegralType, py2LtZero, py2EqZero, pyEq,
      pyNum, pyIntOf]
  | npFloat64 q =>
    simp [integer_validator, isIntegralType, py2LtZero, py2EqZero, pyEq,
      pyNum, pyIntOf]
  | npFloat32 q =>
    simp [integer_validator, isIntegralType, py2LtZero, py2EqZero, pyEq,
      pyNum, pyIntOf]
  | pyStr s =>
    simp [integer_validator, isIntegralType, py2LtZero, py2EqZero, pyEq,
      pyNum, pyText, pyIntOf]
  | pyUnicode s =>
    simp [integer_validator, isIntegralType, py2LtZero, py2EqZero, pyEq,
      pyNum, pyText, pyIntOf]
  | pyNone =>
    simp [integer_validator, isIntegralType, py2LtZero, py2EqZero, pyEq,
      pyNum, pyText, pyIntOf]

/-! ## Claim C10 -/

@[simp] theorem TableJSON.isTable_table (t v : String)
    (e : List (String × VarFields)) : (TableJSON.table t v e).isTable = true := rfl

@[simp] theorem TableJSON.isTable_malformed :
    TableJSON.malformed.isTable = false := rfl

@[simp] theorem TableJSON.isTable_noHeader :
    TableJSON.noHeader.isTable = false := rfl

@[simp] theorem TableJSON.ver_table (t v : String)
    (e : List (String × VarFields)) : (TableJSON.table t v e).ver = some v := rfl

theorem load_fold (fs : List (String × TableJSON)) (st : MipTables) :
    ((fs.foldl load_step st).table_list.length
        = st.table_list.length + (fs.filter (fun f => f.2.isTable)).length) ∧
    ((fs.foldl load_step st).version
        = match st.version with
          | some v => some v
          | none => (fs.filter (fun f => f.2.isTable)).head?.bind
              (fun f => f.2.ver)) := by
  induction fs generalizing st with
  | nil =>
    refine ⟨by simp, ?_⟩
    cases hv : st.version <;> simp [hv]
  | cons f fs ih =>
    obtain ⟨name, content⟩ := f
    cases content with
    | malformed => simpa [load_step] using ih st
    | noHeader => simpa [load_step] using ih st
    | table tid ver ve =>
      have h := ih { tables := aset st.tables (String.mk (tid.toList.drop 6)) ve,
                     table_list := st.table_list ++ [String.mk (tid.toList.drop 6)],
                     version := match st.version with
                                | none => some ver
                                | some v => some v }
      refine ⟨?_, ?_⟩
      · simp only [List.foldl_cons, load_step]
        rw [h.1]
        simp [List.filter_cons]
        omega
      · simp only [List.foldl_cons, load_step]
        rw [h.2]
        cases hv : st.version <;> simp [hv, List.filter_cons]

/-- Claim C10: loading a table directory yields one registered name per
non-reserved table-bearing file (malformed files and the reserved CV file are
skipped without aborting), and the recorded version is the
`data_specs_version` of the first such file, unaffected by later files. -/
theorem c10_load_tables :
    ∀ files : List (String × TableJSON),
      (load_tables_from_directory files).table_list.length
          = (files.filter
              (fun f => f.2.isTable && f.1 != "CMIP6_CV.json")).length ∧
      (load_tables_from_directory files).version
          = (files.filter
              (fun f => f.2.isTable && f.1 != "CMIP6_CV.json")).head?.bind
              (fun f => f.2.ver) := by
  intro files
  have h := load_fold (files.filter (fun f => f.1 != "CMIP6_CV.json"))
    ⟨[], [], none⟩
  rw [List.filter_filter] at h
  exact ⟨by simpa [load_tables_from_directory] using h.1,
         by simpa [load_tables_from_directory] using h.2⟩

/-! ## Claim C6 -/

theorem validate_term_hit (scope : CVScope) (c : TermCache) (k : TermKind)
    (coll : String) (t : PyVal) (r : Option Bool)
    (h : lookupCache c k coll t = some r) :
    validate_term scope c k coll t = (r, c, 0) := by
  unfold lookupCache at h
  cases hc : (c.kindMap k).lookup coll with
  | none => simp [hc] at h
  | some tm =>
    simp only [hc] at h
    simp [validate_term, hc, h]

theorem lookupCache_validate (scope : CVScope) (c : TermCache) (k : TermKind)
    (coll : String) (t : PyVal) :
    lookupCache (validate_term scope c k coll t).2.1 k coll t
      = some (validate_term scope c k coll t).1 := by
  cases hc : (c.kindMap k).lookup coll with
  | some tm =>
    cases ht : tm.lookup t with
    | some r => simp [validate_term, lookupCache, hc, ht]
    | none =>
      cases hs : scope.lookup coll <;>
        simp [validate_term, lookupCache, hc, ht, hs, kindMap_setKind,
          lookup_aset_self]
  | none =>
    cases hs : scope.lookup coll <;>
      simp [validate_term, lookupCache, hc, hs, kindMap_setKind,
        lookup_aset_self, List.lookup]

/-- Claim C6: the term cache is memoizing and write-once.  Any single call
touches the CV scope at most once; a call whose key is already cached returns
the cached tri-state unchanged, leaves the cache untouched and performs no
scope access (entries are never re-validated or overwritten); and a repeated
call with the same `(kind, collection, term)` returns the same result as the
first, with no further scope access. -/
theorem c6_term_cache_memo :
    ∀ (scope : CVScope) (cache : TermCache) (k : TermKind) (coll : String)
      (t : PyVal),
      (validate_term scope cache k coll t).2.2 ≤ 1 ∧
      (∀ r, lookupCache cache k coll t = some r →
        validate_term scope cache k coll t = (r, cache, 0)) ∧
      validate_term scope (validate_term scope cache k coll t).2.1 k coll t
        = ((validate_term scope cache k coll t).1,
           (validate_term scope cache k coll t).2.1, 0) := by
  intro scope cache k coll t
  refine ⟨?_, fun r h => validate_term_hit scope cache k coll t r h,
    validate_term_hit scope _ k coll t _ (lookupCache_validate scope cache k coll t)⟩
  cases hc : (cache.kindMap k).lookup coll with
  | some tm =>
    cases ht : tm.lookup t with
    | some r => simp [validate_term, hc, ht]
    | none =>
      cases hs : scope.lookup coll <;> simp [validate_term, hc, ht, hs]
  | none =>
    cases hs : scope.lookup coll <;> simp [validate_term, hc, hs]

/-- Claim C6, witness: after caching `amon` under `table-id`, a second lookup
returns the memoized `some true` with the cache unchanged and zero scope
accesses. -/
theorem c6_witness :
    validate_term scopeW cacheW .canonical_name "table-id" (.pyStr "amon")
      = (some true, cacheW, 0) :=
  (c6_term_cache_memo scopeW cacheW .canonical_name "table-id"
      (.pyStr "amon")).2.1 (some true) rfl

/-- The per-kind memo map is untouched for the other kinds. -/
theorem kindMap_setKind_ne (c : TermCache) (k k2 : TermKind) (m : CollMap)
    (h : k2 ≠ k) : (c.setKind k m).kindMap k2 = c.kindMap k2 := by
  cases k <;> cases k2 <;> simp_all [TermCache.setKind, TermCache.kindMap]

/-- On a cache whose every entry agrees with the memo-free computation,
`_validate_term` returns exactly the memo-free value; this justifies
embedding the checks over `validate_term_pure`. -/
theorem validate_term_agrees (scope : CVScope) (c : TermCache) (k : TermKind)
    (coll : String) (t : PyVal)
    (h : ∀ k2 coll2 t2 r, lookupCache c k2 coll2 t2 = some r →
      r = validate_term_pure scope k2 coll2 t2) :
    (validate_term scope c k coll t).1 = validate_term_pure scope k coll t := by
  cases hc : (c.kindMap k).lookup coll with
  | some tm =>
    cases ht : tm.lookup t with
    | some r =>
      have hr := h k coll t r (by simp [lookupCache, hc, ht])
      simp [validate_term, hc, ht, hr]
    | none =>
      cases hs : scope.lookup coll <;>
        simp [validate_term, validate_term_pure, hc, ht, hs]
  | none =>
    cases hs : scope.lookup coll <;>
      simp [validate_term, validate_term_pure, hc, hs]

/-- `_validate_term` writes only values that agree with the memo-free
computation, so cache consistency is an invariant of every reachable cache
state. -/
theorem validate_term_preserves (scope : CVScope) (c : TermCache)
    (k : TermKind) (coll : String) (t : PyVal)
    (h : ∀ k2 coll2 t2 r, lookupCache c k2 coll2 t2 = some r →
      r = validate_term_pure scope k2 coll2 t2) :
    ∀ k2 coll2 t2 r,
      lookupCache (validate_term scope c k coll t).2.1 k2 coll2 t2 = some r →
      r = validate_term_pure scope k2 coll2 t2 := by
  have hset : ∀ (m : CollMap) (k2 : TermKind) (coll2 : String) (t2 : PyVal) r,
      lookupCache (c.setKind k m) k2 coll2 t2 = some r →
      (k2 = k ∧ (m.lookup coll2).bind (fun tm => tm.lookup t2) = some r) ∨
      (k2 ≠ k ∧ lookupCache c k2 coll2 t2 = some r) := by
    intro m k2 coll2 t2 r hr
    by_cases hk : k2 = k
    · subst hk
      rw [lookupCache, kindMap_setKind] at hr
      left
      refine ⟨rfl, ?_⟩
      cases hm : m.lookup coll2 with
      | none => rw [hm] at hr; cases hr
      | some tm => rw [hm] at hr; simpa using hr
    · right
      rw [lookupCache, kindMap_setKind_ne c k k2 m hk] at hr
      exact ⟨hk, hr⟩
  have hnew : ∀ (tm : TermMap) (v : Option Bool)
      (hv : v = validate_term_pure scope k coll t)
      (hold : ∀ t2 r, tm.lookup t2 = some r →
        r = validate_term_pure scope k coll t2),
      ∀ k2 coll2 t2 r,
        lookupCache (c.setKind k (aset (c.kindMap k) coll (aset tm t v)))
          k2 coll2 t2 = some r →
        r = validate_term_pure scope k2 coll2 t2 := by
    intro tm v hv hold k2 coll2 t2 r hr
    rcases hset _ k2 coll2 t2 r hr with ⟨hk, hin⟩ | ⟨hk, hin⟩
    · subst hk
      by_cases hcoll : coll2 = coll
      · subst hcoll
        rw [lookup_aset_self] at hin
        simp only [Option.bind] at hin
        by_cases ht2 : t2 = t
        · subst ht2
          rw [lookup_aset_self] at hin
          cases hin
          exact hv
        · rw [lookup_aset_ne tm t t2 v ht2] at hin
          exact hold t2 r hin
      · rw [lookup_aset_ne (c.kindMap k2) coll coll2 _ hcoll] at hin
        have hlc : lookupCache c k2 coll2 t2 = some r := by
          rw [lookupCache]
          cases hm : (c.kindMap k2).lookup coll2 with
          | none => rw [hm] at hin; cases hin
          | some tm2 => rw [hm] at hin; simpa using hin
        exact h k2 coll2 t2 r hlc
    · exact h k2 coll2 t2 r hin
  intro k2 coll2 t2 r hr
  revert hr
  cases hc : (c.kindMap k).lookup coll with
  | some tm =>
    cases ht : tm.lookup t with
    | some r0 =>
      intro hr
      have : validate_term scope c k coll t = (r0, c, 0) := by
        simp [validate_term, hc, ht]
      rw [this] at hr
      exact h k2 coll2 t2 r hr
    | none =>
      have hold : ∀ t3 r3, tm.lookup t3 = some r3 →
          r3 = validate_term_pure scope k coll t3 := by
        intro t3 r3 h3
        exact h k coll t3 r3 (by simp [lookupCache, hc, h3])
      cases hs : scope.lookup coll with
      | some terms =>
        intro hr
        have heq : (validate_term scope c k coll t).2.1
            = c.setKind k (aset (c.kindMap k) coll
                (aset tm t (some (termsContain k terms t)))) := by
          simp [validate_term, hc, ht, hs]
        rw [heq] at hr
        exact hnew tm (some (termsContain k terms t))
          (by simp [validate_term_pure, hs]) hold k2 coll2 t2 r hr
      | none =>
        intro hr
        have heq : (validate_term scope c k coll t).2.1
            = c.setKind k (aset (c.kindMap k) coll (aset tm t none)) := by
          simp [validate_term, hc, ht, hs]
        rw [heq] at hr
        exact hnew tm none (by simp [validate_term_pure, hs]) hold
          k2 coll2 t2 r hr
  | none =>
    have hold : ∀ t3 r3, ([] : TermMap).lookup t3 = some r3 →
        r3 = validate_term_pure scope k coll t3 := by
      intro t3 r3 h3
      cases h3
    cases hs : scope.lookup coll with
    | some terms =>
      intro hr
      have heq : (validate_term scope c k coll t).2.1
          = c.setKind k (aset (c.kindMap k) coll
              [(t, some (termsContain k terms t))]) := by
        simp [validate_term, hc, hs]
      rw [heq] at hr
      exact hnew [] (some (termsContain k terms t))
        (by simp [validate_term_pure, hs]) hold k2 coll2 t2 r hr
    | none =>
      intro hr
      have heq : (validate_term scope c k coll t).2.1
          = c.setKind k (aset (c.kindMap k) coll [(t, none)]) := by
        simp [validate_term, hc, hs]
      rw [heq] at hr
      exact hnew [] none (by simp [validate_term_pure, hs]) hold
        k2 coll2 t2 r hr

/-! ## Claim C4 -/

/-- Claim C4, counterexample: the table-id facet fails CV membership while the
stored `table_id` attribute (`Omon`) also differs from the filename facet
(`Amon`); the result carries only the invalid-term message — no
attribute-mismatch message is produced, so the attribute-vs-facet comparison
was not carried out. -/
theorem c4_counterexample :
    check_filename scopeEmptyTable mtW dsTableMismatch
      = .ok ⟨MEDIUM, 0, 1, "DRS template check",
          [invalidTermMsg "table-id" "pr_Amon_ModelX_piControl_r1i1p1f1_gn.nc"]⟩ ∧
    dsTableMismatch.attrs.lookup "table_id" = some (.pyStr "Omon") := by
  exact ⟨by decide, by decide⟩

/-- Claim C4, amended: for each CV-bound facet, the attribute-vs-facet
comparison runs only when CV membership succeeds.  When membership fails
(`False` or unknown collection) the step returns exactly the invalid-term
message and marks the filename invalid, independently of the stored
attribute, which is not even read; when membership succeeds the stored
attribute is fetched and a case-sensitive mismatch yields its own message. -/
theorem c4_cv_check :
    (∀ (scope : CVScope) (ds : Dataset) (filename : String)
        (parts : List String) (st : List String × Bool) (cv : String × Nat)
        (facet : String),
      parts.get? cv.2 = some facet →
      validate_term_pure scope .canonical_name cv.1 (.pyStr (strLower facet))
        ≠ some true →
      cv_facet_step scope ds filename parts st cv
        = .ok (st.1 ++ [invalidTermMsg cv.1 filename], false)) ∧
    (∀ (scope : CVScope) (ds : Dataset) (filename : String)
        (parts : List String) (st : List String × Bool) (cv : String × Nat)
        (facet : String) (attr : PyVal),
      parts.get? cv.2 = some facet →
      validate_term_pure scope .canonical_name cv.1 (.pyStr (strLower facet))
        = some true →
      getncattr ds (underscored cv.1) = .ok attr →
      cv_facet_step scope ds filename parts st cv
        = .ok (if pyEq attr (.pyStr facet) = false
               then (st.1 ++ [attrMismatchMsg attr cv.1 filename], false)
               else st)) := by
  constructor
  · intro scope ds filename parts st cv facet hget hv
    unfold cv_facet_step
    rw [hget]
    cases hvp : validate_term_pure scope .canonical_name cv.1
        (.pyStr (strLower facet)) with
    | none => simp [hvp]
    | some b =>
      cases b with
      | false => simp [hvp]
      | true => exact absurd hvp hv
  · intro scope ds filename parts st cv facet attr hget hv hattr
    unfold cv_facet_step
    rw [hget]
    cases hpe : pyEq attr (.pyStr facet) <;> simp [hv, hattr, hpe]

/-- Claim C4, witness: a concrete facet failing CV membership makes the step
return only the invalid-term message. -/
theorem c4_witness :
    cv_facet_step scopeEmptyTable dsTableMismatch "fn" ["x", "Amon"]
        ([], true) ("table-id", 1)
      = .ok ([invalidTermMsg "table-id" "fn"], false) :=
  c4_cv_check.1 scopeEmptyTable dsTableMismatch "fn" ["x", "Amon"] ([], true)
    ("table-id", 1) "Amon" rfl (by decide)

/-! ## Claim C5 -/

/-- Claim C5, counterexample: `s1920` is a member of the `sub-experiment-id`
collection of `scopeSub`, yet the filename check flags the member-id's second
component as an invalid `sub_experiment_id`, because the source validates it
against the `experiment-id` collection (which lacks it). -/
theorem c5_counterexample :
    check_filename scopeSub mtW dsSubExp
      = .ok ⟨MEDIUM, 0, 1, "DRS template check",
          [invalidTermMsg "sub_experiment_id"
            "pr_Amon_ModelX_piControl_r1i1p1f1-s1920_gn.nc"]⟩ ∧
    validate_term_pure scopeSub .canonical_name "sub-experiment-id"
        (.pyStr "s1920") = some true := by
  exact ⟨by decide, by decide⟩

/-- Claim C5, amended: when the member-id facet has a second component it is
validated against the `experiment-id` CV collection, not a sub-experiment
collection: the outcome depends only on the `experiment-id` collection of the
scope; membership failure there appends the invalid-term message (which names
`sub_experiment_id`) and marks the filename invalid, and membership success
leaves the state unchanged. -/
theorem c5_sub_experiment :
    (∀ (scope scope2 : CVScope) (filename : String) (mp : List String)
        (st : List String × Bool),
      scope.lookup "experiment-id" = scope2.lookup "experiment-id" →
      sub_experiment_step scope filename mp st
        = sub_experiment_step scope2 filename mp st) ∧
    (∀ (scope : CVScope) (filename : String) (mp : List String)
        (st : List String × Bool),
      1 < mp.length →
      validate_term_pure scope .canonical_name "experiment-id"
          (.pyStr (mp.getD 1 "")) ≠ some true →
      sub_experiment_step scope filename mp st
        = (st.1 ++ [invalidTermMsg "sub_experiment_id" filename], false)) ∧
    (∀ (scope : CVScope) (filename : String) (mp : List String)
        (st : List String × Bool),
      validate_term_pure scope .canonical_name "experiment-id"
          (.pyStr (mp.getD 1 "")) = some true →
      sub_experiment_step scope filename mp st = st) := by
  refine ⟨?_, ?_, ?_⟩
  · intro scope scope2 filename mp st h
    simp only [sub_experiment_step, validate_term_pure, h]
  · intro scope filename mp st hlen hv
    rw [sub_experiment_step, if_pos hlen]
    cases hvp : validate_term_pure scope .canonical_name "experiment-id"
        (.pyStr (mp.getD 1 "")) with
    | none => simp
    | some b =>
      cases b with
      | false => simp
      | true => exact absurd hvp hv
  · intro scope filename mp st hv
    by_cases hlen : 1 < mp.length
    · rw [sub_experiment_step, if_pos hlen, hv]
    · rw [sub_experiment_step, if_neg hlen]

/-- Claim C5, witness: a concrete second component outside `experiment-id`
is flagged. -/
theorem c5_witness :
    sub_experiment_step scopeSub "fn" ["r1i1p1f1", "s1920"] ([], true)
      = ([invalidTermMsg "sub_experiment_id" "fn"], false) :=
  c5_sub_experiment.2.1 scopeSub "fn" ["r1i1p1f1", "s1920"] ([], true)
    (by decide) (by decide)

/-! ## Claim C1

Every sub-check of `check_filename` leaves the (messages, valid) state
untouched whenever the resulting state is still valid; hence a perfect score
implies an empty message list.  The converse fails: the table-membership
sub-check invalidates silently. -/

theorem ebind_ok {ε α β : Type} (a : α) (f : α → Except ε β) :
    (Except.ok a >>= f) = f a := rfl

theorem ebind_err {ε α β : Type} (e : ε) (f : α → Except ε β) :
    (Except.error e >>= f : Except ε β) = .error e := rfl

theorem cv_facet_step_true (scope : CVScope) (ds : Dataset) (fn : String)
    (parts : List String) (st : List String × Bool) (cv : String × Nat)
    (st' : List String × Bool)
    (h : cv_facet_step scope ds fn parts st cv = .ok st') (ht : st'.2 = true) :
    st' = st := by
  simp only [cv_facet_step] at h
  cases hget : parts.get? cv.2 with
  | none => simp only [hget] at h; exact Except.noConfusion h
  | some facet =>
    simp only [hget] at h
    cases hvp : validate_term_pure scope .canonical_name cv.1
        (.pyStr (strLower facet)) with
    | none =>
      simp only [hvp, Except.ok.injEq] at h
      subst h
      simp at ht
    | some b =>
      cases b with
      | false =>
        simp only [hvp, Except.ok.injEq] at h
        subst h
        simp at ht
      | true =>
        simp only [hvp] at h
        cases hattr : getncattr ds (underscored cv.1) with
        | error e => simp only [hattr] at h; exact Except.noConfusion h
        | ok attr =>
          simp only [hattr] at h
          by_cases hpe : pyEq attr (.pyStr facet) = true
          · simp only [hpe, Bool.not_true, Bool.false_eq_true, if_false,
              Except.ok.injEq] at h
            exact h.symm
          · simp only [Bool.not_eq_true] at hpe
            simp only [hpe, Bool.not_false, if_true, Except.ok.injEq] at h
            subst h
            simp at ht

theorem foldlM_cv_true (scope : CVScope) (ds : Dataset) (fn : String)
    (parts : List String) :
    ∀ (l : List (String × Nat)) (st st' : List String × Bool),
      l.foldlM (cv_facet_step scope ds fn parts) st = .ok st' →
      st'.2 = true → st' = st := by
  intro l
  induction l with
  | nil =>
    intro st st' h _
    simp only [List.foldlM_nil] at h
    cases h
    rfl
  | cons c cs ih =>
    intro st st' h ht
    simp only [List.foldlM_cons] at h
    cases hstep : cv_facet_step scope ds fn parts st c with
    | error e => rw [hstep, ebind_err] at h; cases h
    | ok st1 =>
      rw [hstep, ebind_ok] at h
      have h1 : st' = st1 := ih st1 st' h ht
      subst h1
      exact cv_facet_step_true scope ds fn parts st c st' hstep ht

theorem sub_experiment_step_true (scope : CVScope) (fn : String)
    (mp : List String) (st : List String × Bool)
    (ht : (sub_experiment_step scope fn mp st).2 = true) :
    sub_experiment_step scope fn mp st = st := by
  by_cases hlen : mp.length > 1
  · cases hvp : validate_term_pure scope .canonical_name "experiment-id"
        (.pyStr (mp.getD 1 "")) with
    | none =>
      exfalso
      simp only [sub_experiment_step, if_pos hlen, hvp] at ht
      simp at ht
    | some b =>
      cases b with
      | false =>
        exfalso
        simp only [sub_experiment_step, if_pos hlen, hvp] at ht
        simp at ht
      | true => simp only [sub_experiment_step, if_pos hlen, hvp]
  · simp only [sub_experiment_step, if_neg hlen]

theorem variant_label_step_true (ds : Dataset) (mp : List String)
    (st st' : List String × Bool)
    (h : variant_label_step ds mp st = .ok st') (ht : st'.2 = true) :
    st' = st := by
  simp only [variant_label_step] at h
  by_cases hvl : isVariantLabel (mp.headD "") = true
  · simp only [hvl, Bool.not_true, Bool.false_eq_true, if_false] at h
    cases hattr : getncattr ds "variant_label" with
    | error e => simp only [hattr] at h; exact Except.noConfusion h
    | ok vl =>
      simp only [hattr] at h
      by_cases hpe : pyEq vl (.pyStr (mp.headD "")) = true
      · simp only [hpe, Bool.not_true, Bool.false_eq_true, if_false,
          Except.ok.injEq] at h
        exact h.symm
      · simp only [Bool.not_eq_true] at hpe
        simp only [hpe, Bool.not_false, if_true, Except.ok.injEq] at h
        subst h
        simp at ht
  · simp only [Bool.not_eq_true] at hvl
    simp only [hvl, Bool.not_false, if_true, Except.ok.injEq] at h
    subst h
    simp at ht

theorem member_id_step_true (scope : CVScope) (ds : Dataset) (fn : String)
    (mp : List String) (st st' : List String × Bool)
    (h : member_id_step scope ds fn mp st = .ok st') (ht : st'.2 = true) :
    st' = st := by
  unfold member_id_step at h
  have h1 : st' = sub_experiment_step scope fn mp st :=
    variant_label_step_true ds mp _ st' h ht
  rw [h1]
  apply sub_experiment_step_true
  rw [← h1]
  exact ht

theorem table_membership_step_true (mt : MipTables) (parts : List String)
    (st st' : List String × Bool)
    (h : table_membership_step mt parts st = .ok st') (ht : st'.2 = true) :
    st' = st := by
  simp only [table_membership_step] at h
  cases hget : parts.get? 1 with
  | none => simp only [hget] at h; exact Except.noConfusion h
  | some p1 =>
    simp only [hget] at h
    by_cases hm : mt.table_list.contains p1 = true
    · simp only [hm, if_true] at h
      cases hv : get_variables_from_table mt p1 with
      | error e => simp only [hv] at h; exact Except.noConfusion h
      | ok vars =>
        simp only [hv] at h
        by_cases hmem : vars.contains (parts.headD "") = true
        · simp only [hmem, Bool.not_true, Bool.false_eq_true, if_false,
            Except.ok.injEq] at h
          exact h.symm
        · simp only [Bool.not_eq_true] at hmem
          simp only [hmem, Bool.not_false, if_true, Except.ok.injEq] at h
          subst h
          simp at ht
    · simp only [Bool.not_eq_true] at hm
      simp only [hm, Bool.false_eq_true, if_false, Except.ok.injEq] at h
      exact h.symm

theorem daterange_step_true (ds : Dataset) (p6 : String)
    (st : List String × Bool) (ht : (daterange_step ds p6 st).2 = true) :
    daterange_step ds p6 st = st := by
  unfold daterange_step at ht ⊢
  cases hf : getncattr ds "frequency" with
  | error e => simp only [hf] at ht; simp at ht
  | ok freq =>
    simp only [hf] at ht ⊢
    cases hp : parse_date_range p6 freq with
    | error e => simp only [hp] at ht; simp at ht
    | ok o =>
      cases o with
      | none => simp only [hp] at ht; simp at ht
      | some p => simp only [hp]

/-- Claim C1, counterexample: a filename whose variable-id (`tas`) is absent
from its known table (`Amon`) while everything else matches gives score 0 of
1 with an empty message list, so the returned messages are not empty iff the
score is maximal, and a zero score can come with no diagnostic at all. -/
theorem c1_counterexample :
    check_filename scopeW mtW dsUnknownVar
      = .ok ⟨MEDIUM, 0, 1, "DRS template check", []⟩ := by decide

/-- Claim C1, amended: in `check_filename` the implication holds in one
direction only: a maximal score guarantees an empty message list (every
message append also invalidates the filename); the converse fails, because
the variable-membership sub-check invalidates without a message. -/
theorem c1_score_implies_no_messages :
    ∀ (scope : CVScope) (mt : MipTables) (ds : Dataset) (r : CheckResult),
      check_filename scope mt ds = .ok r → r.score = r.out_of →
      r.messages = [] := by
  intro scope mt ds r h hs
  simp only [check_filename] at h
  cases h0 : template_dict.foldlM
      (cv_facet_step scope ds (basename ds.filepath)
        (filenameParts (basename ds.filepath))) ([], true) with
  | error e => rw [h0, ebind_err] at h; cases h
  | ok st0 =>
    rw [h0, ebind_ok] at h
    cases h4 : (filenameParts (basename ds.filepath)).get? 4 with
    | none => simp only [h4, ebind_err] at h; exact Except.noConfusion h
    | some m4 =>
      simp only [h4] at h
      cases h1 : member_id_step scope ds (basename ds.filepath)
          (strSplit '-' m4) st0 with
      | error e => rw [h1, ebind_err] at h; cases h
      | ok st1 =>
        rw [h1, ebind_ok] at h
        cases h2 : table_membership_step mt
            (filenameParts (basename ds.filepath)) st1 with
        | error e => rw [h2, ebind_err] at h; cases h
        | ok st2 =>
          rw [h2, ebind_ok] at h
          simp only [pure, Except.pure, Except.ok.injEq] at h
          subst h
          by_cases h7 : (filenameParts (basename ds.filepath)).length == 7
          · rw [if_pos h7] at hs ⊢
            simp only [make_result] at hs ⊢
            by_cases hval : (daterange_step ds
                ((filenameParts (basename ds.filepath)).getD 6 "")
                st2).2 = true
            · have e3 := daterange_step_true ds _ st2 hval
              rw [e3] at hval ⊢
              have e2 := table_membership_step_true mt _ st1 st2 h2 hval
              rw [e2] at hval ⊢
              have e1 := member_id_step_true scope ds _ _ st0 st1 h1 hval
              rw [e1] at hval ⊢
              have e0 := foldlM_cv_true scope ds _ _ template_dict
                ([], true) st0 h0 hval
              rw [e0]
            · simp only [Bool.not_eq_true] at hval
              rw [hval] at hs
              simp at hs
          · rw [if_neg h7] at hs ⊢
            simp only [make_result] at hs ⊢
            by_cases hval : st2.2 = true
            · have e2 := table_membership_step_true mt _ st1 st2 h2 hval
              rw [e2] at hval ⊢
              have e1 := member_id_step_true scope ds _ _ st0 st1 h1 hval
              rw [e1] at hval ⊢
              have e0 := foldlM_cv_true scope ds _ _ template_dict
                ([], true) st0 h0 hval
              rw [e0]
            · simp only [Bool.not_eq_true] at hval
              rw [hval] at hs
              simp at hs

/-- Claim C1, witness: a fully valid dataset scores 1 of 1 and the theorem
yields its empty message list. -/
theorem c1_witness :
    (⟨MEDIUM, 1, 1, "DRS template check", []⟩ : CheckResult).messages = [] :=
  c1_score_implies_no_messages scopeW mtW dsPass
    ⟨MEDIUM, 1, 1, "DRS template check", []⟩ (by decide) rfl

/-! ## Claim C2 -/

theorem lookup_aset_isSome {α β : Type} [BEq α] [LawfulBEq α]
    (l : List (α × β)) (k k2 : α) (v : β) (h : (l.lookup k2).isSome = true) :
    ((aset l k v).lookup k2).isSome = true := by
  by_cases hk : k2 = k
  · subst hk; rw [lookup_aset_self]; rfl
  · rw [lookup_aset_ne l k k2 v hk]; exact h

/-- Every name registered in a loaded table list has an entry in the tables
index. -/
theorem load_inv (fs : List (String × TableJSON)) (st : MipTables)
    (hst : ∀ n, st.table_list.contains n = true →
      (st.tables.lookup n).isSome = true) :
    ∀ n, (fs.foldl load_step st).table_list.contains n = true →
      ((fs.foldl load_step st).tables.lookup n).isSome = true := by
  induction fs generalizing st with
  | nil => exact hst
  | cons f fs ih =>
    obtain ⟨name, content⟩ := f
    cases content with
    | malformed => exact ih st hst
    | noHeader => exact ih st hst
    | table tid ver ve =>
      apply ih
      intro n hn
      simp only [load_step] at hn ⊢
      have hn2 : n ∈ st.table_list ++ [String.mk (tid.toList.drop 6)] :=
        List.elem_iff.mp hn
      rcases List.mem_append.mp hn2 with hmem | hnew
      · exact lookup_aset_isSome _ _ _ _ (hst n (List.elem_iff.mpr hmem))
      · simp only [List.mem_singleton] at hnew
        subst hnew
        rw [lookup_aset_self]
        rfl

theorem cv_facet_step_ok (scope : CVScope) (ds : Dataset) (fn : String)
    (parts : List String) (st : List String × Bool) (cv : String × Nat)
    (facet : String) (hget : parts.get? cv.2 = some facet)
    (hattr : hasattrD ds (underscored cv.1) = true) :
    ∃ st', cv_facet_step scope ds fn parts st cv = .ok st' := by
  cases hvp : validate_term_pure scope .canonical_name cv.1
      (.pyStr (strLower facet)) with
  | none =>
    exact ⟨(st.1 ++ [invalidTermMsg cv.1 fn], false),
      by simp only [cv_facet_step, hget, hvp]⟩
  | some b =>
    cases b with
    | false =>
      exact ⟨(st.1 ++ [invalidTermMsg cv.1 fn], false),
        by simp only [cv_facet_step, hget, hvp]⟩
    | true =>
      cases hl : ds.attrs.lookup (underscored cv.1) with
      | none => rw [hasattrD, hl] at hattr; simp at hattr
      | some v =>
        refine ⟨if !pyEq v (.pyStr facet)
                then (st.1 ++ [attrMismatchMsg v cv.1 fn], false) else st, ?_⟩
        simp only [cv_facet_step, hget, hvp, getncattr, hl]
        split <;> rfl

theorem foldlM_cv_ok (scope : CVScope) (ds : Dataset) (fn : String)
    (parts : List String) :
    ∀ (l : List (String × Nat)) (st : List String × Bool),
      (∀ cv ∈ l, (parts.get? cv.2).isSome = true ∧
        hasattrD ds (underscored cv.1) = true) →
      ∃ st', l.foldlM (cv_facet_step scope ds fn parts) st = .ok st' := by
  intro l
  induction l with
  | nil => exact fun st _ => ⟨st, rfl⟩
  | cons c cs ih =>
    intro st h
    obtain ⟨hg, ha⟩ := h c (List.mem_cons_self c cs)
    obtain ⟨facet, hfacet⟩ := Option.isSome_iff_exists.mp hg
    obtain ⟨st1, hstep⟩ := cv_facet_step_ok scope ds fn parts st c facet hfacet ha
    obtain ⟨st', hrest⟩ := ih st1 (fun cv hcv => h cv (List.mem_cons_of_mem c hcv))
    exact ⟨st', by rw [List.foldlM_cons, hstep, ebind_ok]; exact hrest⟩

theorem member_id_step_ok (scope : CVScope) (ds : Dataset) (fn : String)
    (mp : List String) (st : List String × Bool)
    (hattr : hasattrD ds "variant_label" = true) :
    ∃ st', member_id_step scope ds fn mp st = .ok st' := by
  unfold member_id_step variant_label_step
  by_cases hvl : isVariantLabel (mp.headD "") = true
  · cases hl : ds.attrs.lookup "variant_label" with
    | none => rw [hasattrD, hl] at hattr; simp at hattr
    | some v =>
      refine ⟨if !pyEq v (.pyStr (mp.headD ""))
              then ((sub_experiment_step scope fn mp st).1
                      ++ [variantMismatchMsg (mp.headD "") v], false)
              else sub_experiment_step scope fn mp st, ?_⟩
      simp only [hvl, Bool.not_true, Bool.false_eq_true, if_false,
        getncattr, hl]
      split <;> rfl
  · simp only [Bool.not_eq_true] at hvl
    exact ⟨((sub_experiment_step scope fn mp st).1
              ++ [invalidVariantMsg (mp.headD "")], false),
      by simp only [hvl, Bool.not_false, if_true]⟩

theorem table_membership_step_ok (files : List (String × TableJSON))
    (parts : List String) (st : List String × Bool)
    (hget : (parts.get? 1).isSome = true) :
    ∃ st', table_membership_step (load_tables_from_directory files) parts st
      = .ok st' := by
  obtain ⟨p1, hp1⟩ := Option.isSome_iff_exists.mp hget
  by_cases hm : (load_tables_from_directory files).table_list.contains p1 = true
  · have hsome : ((load_tables_from_directory files).tables.lookup p1).isSome
        = true :=
      load_inv (files.filter (fun f => f.1 != "CMIP6_CV.json")) ⟨[], [], none⟩
        (fun n hn => Bool.noConfusion hn) p1 hm
    obtain ⟨vars, hvars⟩ := Option.isSome_iff_exists.mp hsome
    refine ⟨if !((vars.map (fun p => p.1)).contains (parts.headD ""))
            then (st.1, false) else st, ?_⟩
    simp only [table_membership_step, hp1, hm, if_true,
      get_variables_from_table, hvars]
    split <;> rfl
  · simp only [Bool.not_eq_true] at hm
    exact ⟨st, by simp only [table_membership_step, hp1, hm,
      Bool.false_eq_true, if_false]⟩

/-- Claim C2, counterexample: a dataset whose table-id facet passes CV
membership but whose `table_id` global attribute is missing makes
`check_filename` raise `AttributeError` (the fetch at the comparison is
outside any handler), so the exception escapes instead of being recorded as a
message. -/
theorem c2_counterexample :
    check_filename scopeW mtW dsMissingTableId
      = .error (.attributeError "table_id") := by decide

/-- Claim C2, amended: `check_filename`'s sub-checks record failures as
messages and it returns a `Result` whenever the filename has at least six
facets and the five cross-checked global attributes (`table_id`, `source_id`,
`experiment_id`, `grid_label`, `variant_label`) are present; but a missing
cross-checked attribute (equally, a filename with fewer facets) escapes as an
exception rather than a message, and in `check_global_attributes` the variable
metadata fetch for a table unknown to the table index likewise raises. -/
theorem c2_checks_complete :
    ∀ (scope : CVScope) (files : List (String × TableJSON)) (ds : Dataset),
      6 ≤ (filenameParts (basename ds.filepath)).length →
      hasattrD ds "table_id" = true →
      hasattrD ds "source_id" = true →
      hasattrD ds "experiment_id" = true →
      hasattrD ds "grid_label" = true →
      hasattrD ds "variant_label" = true →
      ∃ r, check_filename scope (load_tables_from_directory files) ds
        = .ok r := by
  intro scope files ds hlen hT hS hE hG hV
  have hidx : ∀ i, i < 6 →
      ((filenameParts (basename ds.filepath)).get? i).isSome = true := by
    intro i hi
    cases hg : (filenameParts (basename ds.filepath)).get? i with
    | none =>
      have := List.get?_eq_none.mp hg
      omega
    | some _ => rfl
  have hall : ∀ cv ∈ template_dict,
      ((filenameParts (basename ds.filepath)).get? cv.2).isSome = true ∧
        hasattrD ds (underscored cv.1) = true := by
    intro cv hcv
    simp only [template_dict, List.mem_cons, List.not_mem_nil, or_false] at hcv
    rcases hcv with rfl | rfl | rfl | rfl
    · exact ⟨hidx 1 (by omega), hT⟩
    · exact ⟨hidx 2 (by omega), hS⟩
    · exact ⟨hidx 3 (by omega), hE⟩
    · exact ⟨hidx 5 (by omega), hG⟩
  obtain ⟨st0, h0⟩ := foldlM_cv_ok scope ds (basename ds.filepath)
    (filenameParts (basename ds.filepath)) template_dict ([], true) hall
  obtain ⟨m4, h4⟩ := Option.isSome_iff_exists.mp (hidx 4 (by omega))
  obtain ⟨st1, h1⟩ := member_id_step_ok scope ds (basename ds.filepath)
    (strSplit '-' m4) st0 hV
  obtain ⟨st2, h2⟩ := table_membership_step_ok files
    (filenameParts (basename ds.filepath)) st1 (hidx 1 (by omega))
  refine ⟨make_result MEDIUM
      (if (if (filenameParts (basename ds.filepath)).length == 7
           then daterange_step ds
             ((filenameParts (basename ds.filepath)).getD 6 "") st2
           else st2).2 then 1 else 0) 1 "DRS template check"
      (if (filenameParts (basename ds.filepath)).length == 7
       then daterange_step ds
         ((filenameParts (basename ds.filepath)).getD 6 "") st2
       else st2).1, ?_⟩
  simp only [check_filename]
  rw [h0, ebind_ok]
  simp only [h4]
  rw [h1, ebind_ok, h2, ebind_ok]
  rfl

/-- Claim C2, witness: a complete dataset runs to a `Result`. -/
theorem c2_witness :
    ∃ r, check_filename scopeW (load_tables_from_directory filesW) dsPass
      = .ok r :=
  c2_checks_complete scopeW filesW dsPass (by decide) (by decide) (by decide)
    (by decide) (by decide) (by decide)

/-! ## Claim C7 -/

/-- Claim C7, counterexample: a seven-facet filename on a file whose declared
frequency is `fx` is marked invalid with a daterange message — the range
check is not skipped, because `parse_date_range` returns `None` for `fx` and
the caller's tuple unpacking of that `None` raises `TypeError`, which the
catch-all converts into a failure. -/
theorem c7_counterexample :
    check_filename scopeW mtW dsFx
      = .ok ⟨MEDIUM, 0, 1, "DRS template check",
          ["Invalid daterange 185001-185912 (NoneType object is not iterable)"]⟩
    := by decide

/-- Claim C7, amended: the frequency-keyed template table is exactly as the
claim lists, an unknown frequency raises the wrong-frequency `ValueError`,
and for every non-`fx` frequency the parse succeeds iff the first two
`-`-separated components of the date range both parse under the frequency's
template and the end datetime is strictly after the start.  For `fx`,
however, `parse_date_range` returns no range, and a seven-facet filename
with frequency `fx` is marked invalid with a daterange message (the `None`
unpacking `TypeError`) instead of the check being skipped. -/
theorem c7_date_range_check :
    (get_datetime_template "yr" = .ok tY ∧
     get_datetime_template "yrPt" = .ok tY ∧
     get_datetime_template "dec" = .ok tY ∧
     get_datetime_template "mon" = .ok tYM ∧
     get_datetime_template "monC" = .ok tYM ∧
     get_datetime_template "monPt" = .ok tYM ∧
     get_datetime_template "day" = .ok tYMD ∧
     get_datetime_template "6hr" = .ok tYMDHM ∧
     get_datetime_template "6hrPt" = .ok tYMDHM ∧
     get_datetime_template "3hr" = .ok tYMDHM ∧
     get_datetime_template "3hrPt" = .ok tYMDHM ∧
     get_datetime_template "1hr" = .ok tYMDHM ∧
     get_datetime_template "1hrCM" = .ok tYMDHM ∧
     get_datetime_template "1hrPt" = .ok tYMDHM ∧
     get_datetime_template "subhr" = .ok tYMDHMS ∧
     get_datetime_template "subhrPt" = .ok tYMDHMS ∧
     get_datetime_template "fx" = .ok []) ∧
    (∀ f : String, f ∉ knownFrequencies →
      get_datetime_template f
        = .error (.valueError ("Wrong variable frequency " ++ f))) ∧
    (∀ (dr f : String) (tmpl : List DTok),
      get_datetime_template f = .ok tmpl → f ≠ "fx" →
      ((parse_date_range dr (.pyStr f)).isOk = true ↔
        ∃ d2 a b, (strSplit '-' dr).get? 1 = some d2 ∧
          strptime tmpl ((strSplit '-' dr).headD "") = some a ∧
          strptime tmpl d2 = some b ∧ dtLe b a = false)) ∧
    (∀ dr : String, parse_date_range dr (.pyStr "fx") = .ok none) ∧
    (∀ (ds : Dataset) (p6 : String) (st : List String × Bool),
      ds.attrs.lookup "frequency" = some (.pyStr "fx") →
      daterange_step ds p6 st
        = (st.1 ++ [invalidDaterangeMsg p6
            (.typeError "NoneType object is not iterable")], false)) := by
  refine ⟨by decide, ?_, ?_, ?_, ?_⟩
  · intro f hf
    simp only [knownFrequencies, List.mem_cons, List.not_mem_nil, or_false,
      not_or] at hf
    obtain ⟨h1, h2, h3, h4, h5, h6, h7, h8, h9, h10, h11, h12, h13, h14, h15,
      h16, h17⟩ := hf
    simp [get_datetime_template, h1, h2, h3, h4, h5, h6, h7, h8, h9, h10,
      h11, h12, h13, h14, h15, h16, h17]
  · intro dr f tmpl htmpl hfx
    have hne : pyEq (.pyStr f) (.pyStr "fx") = false := by
      simp [pyEq, pyNum, pyText, hfx]
    unfold parse_date_range
    simp only [hne, Bool.false_eq_true, if_false]
    cases hd2 : (strSplit '-' dr).get? 1 with
    | none => simp [hd2, Except.isOk, Except.toBool]
    | some d2 =>
      simp only [hd2, pyText, htmpl]
      cases h1 : strptime tmpl ((strSplit '-' dr).headD "") with
      | none => simp [h1, Except.isOk, Except.toBool]
      | some a =>
        cases h2 : strptime tmpl d2 with
        | none => simp [h1, h2, Except.isOk, Except.toBool]
        | some b =>
          by_cases hle : dtLe b a = true
          · simp [h1, h2, hle, Except.isOk, Except.toBool]
          · simp only [Bool.not_eq_true] at hle
            simp [h1, h2, hle, Except.isOk, Except.toBool]
  · intro dr
    rfl
  · intro ds p6 st h
    unfold daterange_step
    simp only [getncattr, h]
    have hfxp : parse_date_range p6 (.pyStr "fx") = .ok none := rfl
    simp only [hfxp]

/-- Claim C7, witness: `mon` parses `185001-185912` into a valid increasing
range, and `foo` is rejected as a frequency. -/
theorem c7_witness :
    (parse_date_range "185001-185912" (.pyStr "mon")).isOk = true ∧
    get_datetime_template "foo"
      = .error (.valueError ("Wrong variable frequency " ++ "foo")) := by
  constructor
  · exact (c7_date_range_check.2.2.1 "185001-185912" "mon" tYM (by decide)
      (by decide)).mpr
      ⟨"185912", ⟨1850, 1, 1, 0, 0, 0⟩, ⟨1859, 12, 1, 0, 0, 0⟩, by decide,
        by decide, by decide, by decide⟩
  · exact c7_date_range_check.2.1 "foo" (by decide)

/-! ## Claim C8 -/

/-- A successful `_exists_and_valid` never decreases the error count and
never drops messages. -/
theorem eav_shape (ds : Dataset) (a : String)
    (validator : PyVal → Except PyExc Bool) (st st' : GAState)
    (h : exists_and_valid ds a validator st = .ok st') :
    st.errors ≤ st'.errors ∧ ∀ m ∈ st.messages, m ∈ st'.messages := by
  unfold exists_and_valid at h
  cases hl : ds.attrs.lookup a with
  | none =>
    simp only [hl, Except.ok.injEq] at h
    subst h
    exact ⟨Nat.le_succ _, fun m hm => List.mem_append_left _ hm⟩
  | some v =>
    simp only [hl] at h
    cases hv : validator v with
    | error e => simp only [hv] at h; exact Except.noConfusion h
    | ok b =>
      simp only [hv] at h
      cases b with
      | false =>
        simp only [Bool.not_false, if_true, Except.ok.injEq] at h
        subst h
        exact ⟨Nat.le_succ _, fun m hm => List.mem_append_left _ hm⟩
      | true =>
        simp only [Bool.not_true, Bool.false_eq_true, if_false,
          Except.ok.injEq] at h
        subst h
        exact ⟨Nat.le_refl _, fun m hm => hm⟩

/-- `_exists_and_valid` completes whenever the validator completes on the
stored value. -/
theorem eav_ok_of_validator (ds : Dataset) (a : String)
    (validator : PyVal → Except PyExc Bool) (st : GAState)
    (h : ∀ v, ds.attrs.lookup a = some v → ∃ b, validator v = .ok b) :
    ∃ st', exists_and_valid ds a validator st = .ok st' := by
  unfold exists_and_valid
  cases hl : ds.attrs.lookup a with
  | none => exact ⟨⟨st.errors + 1, st.messages ++ [eavMsg a]⟩, rfl⟩
  | some v =>
    obtain ⟨b, hb⟩ := h v hl
    refine ⟨if !b then ⟨st.errors + 1, st.messages ++ [eavMsg a]⟩ else st, ?_⟩
    simp only [hb]
    split <;> rfl

/-- `_validate_cv_attribute` never decreases the error count and never drops
messages. -/
theorem vca_shape (scope : CVScope) (ds : Dataset) (coll : String)
    (nc : Option String) (st : GAState) :
    st.errors ≤ (validate_cv_attribute scope ds coll nc st).errors ∧
    ∀ m ∈ st.messages, m ∈ (validate_cv_attribute scope ds coll nc st).messages := by
  cases hl : ds.attrs.lookup (nc.getD (underscored coll)) with
  | none =>
    have he : validate_cv_attribute scope ds coll nc st
        = ⟨st.errors + 1,
           st.messages ++ [missingAttrMsg (nc.getD (underscored coll))]⟩ := by
      simp [validate_cv_attribute, hl]
    rw [he]
    exact ⟨Nat.le_succ _, fun m hm => List.mem_append_left _ hm⟩
  | some item =>
    cases hv : validate_term_pure scope .label coll item with
    | none =>
      have he : validate_cv_attribute scope ds coll nc st
          = ⟨st.errors + 1 + 1,
             st.messages ++ [unknownCollMsg coll]
               ++ [illegalValueMsg (nc.getD (underscored coll)) item]⟩ := by
        simp [validate_cv_attribute, hl, hv]
      rw [he]
      exact ⟨(by omega : st.errors ≤ st.errors + 1 + 1),
        fun m hm => List.mem_append_left _ (List.mem_append_left _ hm)⟩
    | some b =>
      cases b with
      | false =>
        have he : validate_cv_attribute scope ds coll nc st
            = ⟨st.errors + 1,
               st.messages
                 ++ [illegalValueMsg (nc.getD (underscored coll)) item]⟩ := by
          simp [validate_cv_attribute, hl, hv]
        rw [he]
        exact ⟨Nat.le_succ _, fun m hm => List.mem_append_left _ hm⟩
      | true =>
        have he : validate_cv_attribute scope ds coll nc st = st := by
          simp [validate_cv_attribute, hl, hv]
        rw [he]
        exact ⟨Nat.le_refl _, fun m hm => hm⟩

/-- All checks of `has_parent_rest` complete (its two regex validators need
text-or-absent attributes) and accumulate monotonically. -/
theorem has_parent_rest_ok (scope : CVScope) (ds : Dataset) (sid : PyVal)
    (st : GAState)
    (htu : ∀ v, ds.attrs.lookup "parent_time_units" = some v →
      (pyText v).isSome = true)
    (hvl : ∀ v, ds.attrs.lookup "parent_variant_label" = some v →
      (pyText v).isSome = true) :
    ∃ st', has_parent_rest scope ds sid st = .ok st' ∧
      st.errors ≤ st'.errors ∧ ∀ m ∈ st.messages, m ∈ st'.messages := by
  obtain ⟨s1, h1⟩ := eav_ok_of_validator ds "branch_time_in_child"
    (liftV float_validator) st (fun v _ => ⟨float_validator v, rfl⟩)
  obtain ⟨s2, h2⟩ := eav_ok_of_validator ds "branch_time_in_parent"
    (liftV float_validator) s1 (fun v _ => ⟨float_validator v, rfl⟩)
  have s3 := validate_cv_attribute scope ds "activity-id"
    (some "parent_activity_id") s2
  have s4 := validate_cv_attribute scope ds "experiment-id"
    (some "parent_experiment_id") s3
  obtain ⟨s5, h5⟩ := eav_ok_of_validator ds "parent_mip_era"
    (liftV (value_in_validator [.pyStr "CMIP6"]))
    (validate_cv_attribute scope ds "experiment-id"
      (some "parent_experiment_id")
      (validate_cv_attribute scope ds "activity-id"
        (some "parent_activity_id") s2))
    (fun v _ => ⟨_, rfl⟩)
  obtain ⟨s7, h7⟩ := eav_ok_of_validator ds "parent_source_id"
    (liftV (value_in_validator [sid]))
    (validate_cv_attribute scope ds "source-id" (some "parent_source_id") s5)
    (fun v _ => ⟨_, rfl⟩)
  obtain ⟨s8, h8⟩ := eav_ok_of_validator ds "parent_time_units"
    (string_validator (some startsDaysSince)) s7 (fun v hv => by
      obtain ⟨t, ht⟩ := Option.isSome_iff_exists.mp (htu v hv)
      exact ⟨if !startsDaysSince t then false else (some t).isSome,
        by simp only [string_validator, ht]⟩)
  obtain ⟨s9, h9⟩ := eav_ok_of_validator ds "parent_variant_label"
    (string_validator (some isVariantLabel)) s8 (fun v hv => by
      obtain ⟨t, ht⟩ := Option.isSome_iff_exists.mp (hvl v hv)
      exact ⟨if !isVariantLabel t then false else (some t).isSome,
        by simp only [string_validator, ht]⟩)
  refine ⟨s9, ?_, ?_, ?_⟩
  · simp only [has_parent_rest]
    rw [h1, ebind_ok, h2, ebind_ok, h5, ebind_ok, h7, ebind_ok, h8,
      ebind_ok, h9, ebind_ok]
    rfl
  · have m1 := eav_shape ds _ _ st s1 h1
    have m2 := eav_shape ds _ _ s1 s2 h2
    have m3 := vca_shape scope ds "activity-id" (some "parent_activity_id") s2
    have m4 := vca_shape scope ds "experiment-id" (some "parent_experiment_id")
      (validate_cv_attribute scope ds "activity-id"
        (some "parent_activity_id") s2)
    have m5 := eav_shape ds _ _ _ s5 h5
    have m6 := vca_shape scope ds "source-id" (some "parent_source_id") s5
    have m7 := eav_shape ds _ _ _ s7 h7
    have m8 := eav_shape ds _ _ s7 s8 h8
    have m9 := eav_shape ds _ _ s8 s9 h9
    omega
  · intro m hm
    have m1 := eav_shape ds _ _ st s1 h1
    have m2 := eav_shape ds _ _ s1 s2 h2
    have m3 := vca_shape scope ds "activity-id" (some "parent_activity_id") s2
    have m4 := vca_shape scope ds "experiment-id" (some "parent_experiment_id")
      (validate_cv_attribute scope ds "activity-id"
        (some "parent_activity_id") s2)
    have m5 := eav_shape ds _ _ _ s5 h5
    have m6 := vca_shape scope ds "source-id" (some "parent_source_id") s5
    have m7 := eav_shape ds _ _ _ s7 h7
    have m8 := eav_shape ds _ _ s7 s8 h8
    have m9 := eav_shape ds _ _ s8 s9 h9
    exact m9.2 _ (m8.2 _ (m7.2 _ (m6.2 _ (m5.2 _ (m4.2 _ (m3.2 _
      (m2.2 _ (m1.2 _ hm))))))))

/-- A `_does_not_exist_or_valid` whose validator accepts every stored value
leaves the state unchanged. -/
theorem dnev_unchanged (ds : Dataset) (a : String) (f : PyVal → Bool)
    (st : GAState) (h : ∀ v, ds.attrs.lookup a = some v → f v = true) :
    does_not_exist_or_valid ds a (liftV f) st = .ok st := by
  unfold does_not_exist_or_valid
  cases hl : ds.attrs.lookup a with
  | none => rfl
  | some v =>
    simp only [liftV, h v hl, Bool.not_true, Bool.false_eq_true, if_false]

/-- The no-parent sentinel fold leaves the state unchanged whenever every
parent-cluster attribute is absent or the sentinel. -/
theorem sentinel_fold_unchanged (ds : Dataset) :
    ∀ (l : List String),
      (∀ a ∈ l, ∀ v, ds.attrs.lookup a = some v →
        pyEq v (.pyStr "no parent") = true) →
      ∀ s : GAState,
        l.foldl (fun s a =>
          match does_not_exist_or_valid ds a
              (liftV (value_in_validator [.pyStr "no parent"])) s with
          | .ok s' => s'
          | .error _ => s) s = s := by
  intro l
  induction l with
  | nil => intro _ s; rfl
  | cons a as ih =>
    intro h s
    rw [List.foldl_cons]
    have h1 : does_not_exist_or_valid ds a
        (liftV (value_in_validator [.pyStr "no parent"])) s = .ok s :=
      dnev_unchanged ds a _ s (fun v hv => by
        have := h a (List.mem_cons_self a as) v hv
        simp [value_in_validator, this])
    simp only [h1]
    exact ih (fun a2 ha2 => h a2 (List.mem_cons_of_mem a ha2)) s

/-- Under the no-parent compliance conditions the no-parent branch adds no
error (at most the time-variable message). -/
theorem no_parent_errors (ds : Dataset) (st : GAState)
    (hbtc : ∀ v t0, ds.attrs.lookup "branch_time_in_child" = some v →
      timeHead ds = some t0 → pyEq v t0 = true)
    (hbtp : ∀ v, ds.attrs.lookup "branch_time_in_parent" = some v →
      pyEq v (.pyFloat 0) = true)
    (hpa : ∀ a ∈ PARENT_ATTRIBUTES, ∀ v, ds.attrs.lookup a = some v →
      pyEq v (.pyStr "no parent") = true) :
    ∃ msgs, no_parent_checks ds st = ⟨st.errors, msgs⟩ := by
  unfold no_parent_checks
  have hst2 : ∀ s : GAState,
      (match does_not_exist_or_valid ds "branch_time_in_parent"
          (liftV (value_in_validator [.pyFloat 0])) s with
        | .ok s' => s'
        | .error _ => s) = s := by
    intro s
    have h2 : does_not_exist_or_valid ds "branch_time_in_parent"
        (liftV (value_in_validator [.pyFloat 0])) s = .ok s :=
      dnev_unchanged ds _ _ s (fun v hv => by
        have := hbtp v hv
        simp [value_in_validator, this])
    simp only [h2]
  cases hth : timeHead ds with
  | none =>
    simp only [hth, hst2, sentinel_fold_unchanged ds PARENT_ATTRIBUTES hpa]
    exact ⟨st.messages ++ [timeVarMsg], rfl⟩
  | some t0 =>
    have h1 : does_not_exist_or_valid ds "branch_time_in_child"
        (liftV (value_in_validator [t0])) st = .ok st :=
      dnev_unchanged ds _ _ st (fun v hv => by
        have := hbtc v t0 hv hth
        simp [value_in_validator, this])
    simp only [hth, h1, hst2, sentinel_fold_unchanged ds PARENT_ATTRIBUTES hpa]
    exact ⟨st.messages, rfl⟩

/-- Claim C8, counterexample: a file meeting every condition the claim lists
for the no-parent branch (no parent attributes, `branch_time_in_parent`
absent) still fails it, because the branch also compares a present
`branch_time_in_child` against the first time value: here 5.0 versus 3.0
yields one error. -/
theorem c8_counterexample :
    parent_section [] dsBranchChild .pyNone ⟨0, []⟩
      = .ok ⟨1, [dnevMsg "branch_time_in_child"]⟩ := by decide

/-- Claim C8, amended: the no-parent branch (parent_experiment_id absent or
the sentinel) requires `branch_time_in_parent`, if present, to equal 0.0,
every parent-cluster attribute to be absent or `"no parent"`, and — in
addition to what the claim lists — `branch_time_in_child`, if present while
the first time value is retrievable, to equal that value; a file meeting
these passes the branch with no error.  When a real parent experiment is
declared, an absent `branch_method` yields its missing-attribute message and
an error (provided the two parent string attributes are absent or text, so
no exception aborts the branch). -/
theorem c8_parent_provenance :
    (∀ (scope : CVScope) (ds : Dataset) (sid : PyVal) (st : GAState),
      (∀ v, ds.attrs.lookup "parent_experiment_id" = some v →
        pyEq v (.pyStr "no parent") = true) →
      (∀ v t0, ds.attrs.lookup "branch_time_in_child" = some v →
        timeHead ds = some t0 → pyEq v t0 = true) →
      (∀ v, ds.attrs.lookup "branch_time_in_parent" = some v →
        pyEq v (.pyFloat 0) = true) →
      (∀ a ∈ PARENT_ATTRIBUTES, ∀ v, ds.attrs.lookup a = some v →
        pyEq v (.pyStr "no parent") = true) →
      ∃ msgs, parent_section scope ds sid st = .ok ⟨st.errors, msgs⟩) ∧
    (∀ (scope : CVScope) (ds : Dataset) (sid : PyVal) (st : GAState)
        (pev : PyVal),
      ds.attrs.lookup "parent_experiment_id" = some pev →
      pyEq pev (.pyStr "no parent") = false →
      ds.attrs.lookup "branch_method" = none →
      (∀ v, ds.attrs.lookup "parent_time_units" = some v →
        (pyText v).isSome = true) →
      (∀ v, ds.attrs.lookup "parent_variant_label" = some v →
        (pyText v).isSome = true) →
      ∃ st', parent_section scope ds sid st = .ok st' ∧
        eavMsg "branch_method" ∈ st'.messages ∧
        st.errors + 1 ≤ st'.errors) := by
  constructor
  · intro scope ds sid st hnp hbtc hbtp hpa
    obtain ⟨msgs, hmsgs⟩ := no_parent_errors ds st hbtc hbtp hpa
    unfold parent_section
    cases hl : ds.attrs.lookup "parent_experiment_id" with
    | none => exact ⟨msgs, by simp only [hmsgs]⟩
    | some v =>
      have := hnp v hl
      simp only [hl, this, if_true]
      exact ⟨msgs, by simp only [hmsgs]⟩
  · intro scope ds sid st pev hpe hne hbm htu hvl
    have hvca := vca_shape scope ds "experiment-id"
      (some "parent_experiment_id") st
    set st0 := validate_cv_attribute scope ds "experiment-id"
      (some "parent_experiment_id") st with hst0
    have hbm1 : exists_and_valid ds "branch_method" (liftV nonempty_validator)
        st0 = .ok ⟨st0.errors + 1, st0.messages ++ [eavMsg "branch_method"]⟩ := by
      unfold exists_and_valid
      simp only [hbm]
    obtain ⟨st', hrest, hle, hmem⟩ := has_parent_rest_ok scope ds sid
      ⟨st0.errors + 1, st0.messages ++ [eavMsg "branch_method"]⟩ htu hvl
    refine ⟨st', ?_, ?_, ?_⟩
    · unfold parent_section has_parent_checks
      simp only [hpe, hne, Bool.false_eq_true, if_false, ← hst0, hbm1,
        Except.bind]
      exact hrest
    · exact hmem _ (List.mem_append_right _ (List.mem_cons_self _ _))
    · have hle2 : st0.errors + 1 ≤ st'.errors := hle
      have := hvca.1
      omega

/-- Claim C8, witness: the sentinel file passes the no-parent branch with no
error, and the real-parent file without `branch_method` gains the
missing-attribute message and an error. -/
theorem c8_witness :
    (∃ msgs, parent_section [] dsNoParent .pyNone ⟨0, []⟩ = .ok ⟨0, msgs⟩) ∧
    (∃ st', parent_section scopeW dsParentNoBranch .pyNone ⟨0, []⟩ = .ok st' ∧
      eavMsg "branch_method" ∈ st'.messages ∧ 0 + 1 ≤ st'.errors) := by
  constructor
  · refine c8_parent_provenance.1 [] dsNoParent .pyNone ⟨0, []⟩ ?_ ?_ ?_ ?_
    · intro v h
      have h2 : PyVal.pyStr "no parent" = v := by
        have : dsNoParent.attrs.lookup "parent_experiment_id"
            = some (.pyStr "no parent") := by decide
        rw [this] at h
        exact Option.some.inj h
      subst h2
      decide
    · intro v t0 h ht
      have : dsNoParent.attrs.lookup "branch_time_in_child"
          = (none : Option PyVal) := by decide
      rw [this] at h
      exact Option.noConfusion h
    · intro v h
      have : dsNoParent.attrs.lookup "branch_time_in_parent"
          = (none : Option PyVal) := by decide
      rw [this] at h
      exact Option.noConfusion h
    · intro a ha v h
      by_cases hae : a = "parent_experiment_id"
      · subst hae
        have h2 : PyVal.pyStr "no parent" = v := by
          rw [show dsNoParent.attrs.lookup "parent_experiment_id"
              = some (.pyStr "no parent") from by decide] at h
          exact Option.some.inj h
        subst h2
        decide
      · have hae2 : (a == "parent_experiment_id") = false :=
          beq_eq_false_iff_ne.mpr hae
        have hn : dsNoParent.attrs.lookup a = none := by
          simp [dsNoParent, List.lookup, hae2]
        rw [hn] at h
        exact Option.noConfusion h
  · refine c8_parent_provenance.2 scopeW dsParentNoBranch .pyNone ⟨0, []⟩
      (.pyStr "piControl") (by decide) (by decide) (by decide) ?_ ?_
    · intro v h
      rw [show dsParentNoBranch.attrs.lookup "parent_time_units"
          = (none : Option PyVal) from by decide] at h
      exact Option.noConfusion h
    · intro v h
      rw [show dsParentNoBranch.attrs.lookup "parent_variant_label"
          = (none : Option PyVal) from by decide] at h
      exact Option.noConfusion h

end CMIP6
